import Mathlib

/-!
# Ray-traced ambient occlusion: the per-frame command stream

A shallow embedding of `src/ray_traced_ao.cpp`.  The class `RayTracedAO` records
Vulkan commands into a command buffer; here every recording function is a pure
function from the object's state to the list of commands it appends, in order.

Conventions of the embedding:

* array indices are natural numbers; a `bool` used as an index (`ping_pong`,
  `!ping_pong`) is converted with `Bool.toNat` (false is 0, true is 1);
* finite `float` values are rationals; `float(n)` of an integer is the
  round-to-nearest-even conversion to a 24-bit significand (`float_of_nat`);
* `uint32_t` arithmetic is taken modulo `2^32`;
* the profiling scopes (`DW_SCOPED_SAMPLE`) are instrumentation and are not
  part of the modelled command stream.
-/

namespace RayTracedAO

/-! ## Resources -/

/-- The constant `MAX_RAY_TRACE_IMAGE_MIP_MAPS` of the source. -/
def MAX_RAY_TRACE_IMAGE_MIP_MAPS : Nat := 5

/-- The images created by `create_images`. -/
inductive Image where
  | ray_trace_image
  | color_image (i : Nat)
  | history_length_image (i : Nat)
  | gaussian_blur_image (i : Nat)
  | recurrent_blur_image
  | upsample_image
  deriving DecidableEq, Repr

/-- The parameters of `dw::vk::Image::create` that the source varies. -/
structure ImageDesc where
  width : Nat
  height : Nat
  mip_levels : Nat
  deriving DecidableEq, Repr

/-- An image view: an image and the mip range it spans. -/
structure ImageView where
  image : Image
  base_mip_level : Nat
  level_count : Nat
  deriving DecidableEq, Repr

/-- The call `dw::vk::ImageView::create(backend, image, VK_IMAGE_VIEW_TYPE_2D,
VK_IMAGE_ASPECT_COLOR_BIT, base_mip_level, level_count)`.  Where the source omits
the last two arguments they take the values 0 and 1. -/
def ImageView.create (image : Image) (base_mip_level level_count : Nat) : ImageView :=
  { image := image, base_mip_level := base_mip_level, level_count := level_count }

/-- The mip levels of the image that a view spans. -/
def ImageView.mips (v : ImageView) : List Nat :=
  (List.range v.level_count).map (fun k => v.base_mip_level + k)

inductive ImageLayout where
  | UNDEFINED
  | GENERAL
  | SHADER_READ_ONLY_OPTIMAL
  deriving DecidableEq, Repr

inductive Access where
  | SHADER_READ
  | SHADER_WRITE
  deriving DecidableEq, Repr

inductive PipelineStage where
  | FRAGMENT_SHADER
  | COMPUTE_SHADER
  deriving DecidableEq, Repr

inductive DescriptorType where
  | STORAGE_IMAGE
  | COMBINED_IMAGE_SAMPLER
  deriving DecidableEq, Repr

inductive Sampler where
  | nearest_sampler
  | bilinear_sampler
  deriving DecidableEq, Repr

/-- The descriptor set layouts used by this class: three it creates itself and
the ones it takes from the common resources, the scene and the G-buffer. -/
inductive DescriptorSetLayout where
  | scene_ds_layout
  | storage_image_ds_layout
  | combined_sampler_ds_layout
  | per_frame_ds_layout
  | g_buffer_ds_layout
  | blue_noise_ds_layout
  | temporal_reprojection_write_ds_layout
  | temporal_reprojection_read_ds_layout
  | downsample_write_ds_layout
  deriving DecidableEq, Repr

/-- The descriptor sets bound by the passes: those allocated by
`create_descriptor_sets` and the external ones. -/
inductive DescriptorSet where
  | scene_ds
  | per_frame_ds
  | g_buffer_output_ds
  | g_buffer_history_ds
  | blue_noise_ds
  | ray_trace_write_ds
  | ray_trace_read_ds
  | temporal_reprojection_write_ds (i : Nat)
  | temporal_reprojection_read_ds (i : Nat)
  | temporal_reprojection_output_read_ds (i : Nat)
  | temporal_reprojection_output_bilinear_read_ds (i : Nat)
  | downsample_write_ds (i : Nat)
  | gaussian_blur_write_ds (i : Nat)
  | gaussian_blur_read_ds (i : Nat)
  | recurrent_blur_write_ds
  | recurrent_blur_read_ds
  | upsample_write_ds
  | upsample_read_ds
  deriving DecidableEq, Repr

/-- The six compute pipelines (and their pipeline layouts) of `create_pipeline`. -/
inductive Pipeline where
  | ray_trace
  | temporal_reprojection
  | downsample
  | gaussian_blur
  | recurrent_blur
  | upsample
  deriving DecidableEq, Repr

/-! ## Object state -/

/-- A `glm::vec4` of finite floats. -/
structure Vec4 where
  x : ℚ
  y : ℚ
  z : ℚ
  w : ℚ
  deriving DecidableEq

/-- The fields of `CommonResources` that this class reads. -/
structure CommonResources where
  first_frame : Bool
  ping_pong : Bool
  num_frames : Nat
  sampler_type : Nat
  ubo_size : Nat
  z_buffer_params : Vec4
  deriving DecidableEq

structure RayTraceParams where
  num_rays : Int
  ray_length : ℚ
  power : ℚ
  bias : ℚ
  deriving DecidableEq

structure TemporalReprojectionParams where
  alpha : ℚ
  deriving DecidableEq

structure GaussianBlurParams where
  blur_radius : Int
  deriving DecidableEq

structure RecurrentBlurParams where
  blur_radius : Int
  self_stabilize : Bool
  feedback : Bool
  deriving DecidableEq

/-- The state of a `RayTracedAO` object that the recording functions read. -/
structure State where
  m_width : Nat
  m_height : Nat
  m_enabled : Bool
  m_denoise : Bool
  m_use_recurrent_blur : Bool
  m_ray_trace : RayTraceParams
  m_temporal_reprojection : TemporalReprojectionParams
  m_gaussian_blur : GaussianBlurParams
  m_recurrent_blur : RecurrentBlurParams
  m_common_resources : CommonResources
  current_frame_idx : Nat
  deriving DecidableEq

/-! ## Construction: images, views, descriptor sets, pipeline layouts -/

/-- The constructor's computation of `m_width` and `m_height` from the swap-chain
extents (unsigned division by two). -/
def State.half_extent (swap_chain_extent : Nat) : Nat :=
  swap_chain_extent / 2

/-- Function `create_images`: the description of each image it creates.  An index
outside the loop `for (int i = 0; i < 2; i++)` names no image; such an entry
repeats the entry of the same array. -/
def create_images (self : State) : Image → ImageDesc
  | .ray_trace_image =>
      { width := self.m_width, height := self.m_height, mip_levels := MAX_RAY_TRACE_IMAGE_MIP_MAPS }
  | .color_image _ =>
      { width := self.m_width, height := self.m_height, mip_levels := 5 }
  | .history_length_image _ =>
      { width := self.m_width, height := self.m_height, mip_levels := 1 }
  | .gaussian_blur_image _ =>
      { width := self.m_width, height := self.m_height, mip_levels := 1 }
  | .recurrent_blur_image =>
      { width := self.m_width, height := self.m_height, mip_levels := 1 }
  | .upsample_image =>
      { width := (self.m_width * 2) % 2 ^ 32, height := (self.m_height * 2) % 2 ^ 32,
        mip_levels := 1 }

/-- View `m_ray_trace.view`. -/
def ray_trace_view : ImageView := ImageView.create .ray_trace_image 0 1

/-- View `m_ray_trace.all_mips_view`. -/
def ray_trace_all_mips_view : ImageView :=
  ImageView.create .ray_trace_image 0 MAX_RAY_TRACE_IMAGE_MIP_MAPS

/-- View `m_temporal_reprojection.color_view[i]`. -/
def color_view (i : Nat) : ImageView := ImageView.create (.color_image i) 0 1

/-- View `m_temporal_reprojection.history_length_view[i]`. -/
def history_length_view (i : Nat) : ImageView := ImageView.create (.history_length_image i) 0 1

/-- View `m_downsample.image_view_mip1[i]`. -/
def image_view_mip1 (i : Nat) : ImageView := ImageView.create (.color_image i) 1 1

/-- View `m_downsample.image_view_mip2[i]`. -/
def image_view_mip2 (i : Nat) : ImageView := ImageView.create (.color_image i) 2 1

/-- View `m_downsample.image_view_mip3[i]`. -/
def image_view_mip3 (i : Nat) : ImageView := ImageView.create (.color_image i) 3 1

/-- View `m_downsample.image_view_mip4[i]`. -/
def image_view_mip4 (i : Nat) : ImageView := ImageView.create (.color_image i) 4 1

/-- View `m_gaussian_blur.image_view[i]`. -/
def gaussian_blur_image_view (i : Nat) : ImageView := ImageView.create (.gaussian_blur_image i) 0 1

/-- View `m_recurrent_blur.image_view`. -/
def recurrent_blur_image_view : ImageView := ImageView.create .recurrent_blur_image 0 1

/-- View `m_upsample.image_view`. -/
def upsample_image_view : ImageView := ImageView.create .upsample_image 0 1

/-- Function `create_descriptor_sets`: the layout each descriptor set of this class
is allocated from; `none` for the sets owned by other objects. -/
def create_descriptor_sets : DescriptorSet → Option DescriptorSetLayout
  | .ray_trace_write_ds => some .storage_image_ds_layout
  | .ray_trace_read_ds => some .combined_sampler_ds_layout
  | .temporal_reprojection_write_ds _ => some .temporal_reprojection_write_ds_layout
  | .temporal_reprojection_read_ds _ => some .temporal_reprojection_read_ds_layout
  | .temporal_reprojection_output_read_ds _ => some .combined_sampler_ds_layout
  | .temporal_reprojection_output_bilinear_read_ds _ => some .combined_sampler_ds_layout
  | .downsample_write_ds _ => some .downsample_write_ds_layout
  | .gaussian_blur_write_ds _ => some .storage_image_ds_layout
  | .gaussian_blur_read_ds _ => some .combined_sampler_ds_layout
  | .recurrent_blur_write_ds => some .storage_image_ds_layout
  | .recurrent_blur_read_ds => some .combined_sampler_ds_layout
  | .upsample_write_ds => some .storage_image_ds_layout
  | .upsample_read_ds => some .combined_sampler_ds_layout
  | _ => none

/-- The bindings (binding index and descriptor type) that `create_descriptor_sets`
declares for the three layouts it creates. -/
def layout_bindings : DescriptorSetLayout → List (Nat × DescriptorType)
  | .temporal_reprojection_write_ds_layout =>
      [(0, .STORAGE_IMAGE), (1, .STORAGE_IMAGE)]
  | .temporal_reprojection_read_ds_layout =>
      [(0, .COMBINED_IMAGE_SAMPLER), (1, .COMBINED_IMAGE_SAMPLER)]
  | .downsample_write_ds_layout =>
      [(0, .STORAGE_IMAGE), (1, .STORAGE_IMAGE), (2, .STORAGE_IMAGE), (3, .STORAGE_IMAGE)]
  | _ => []

/-- One `VkWriteDescriptorSet` with its `VkDescriptorImageInfo`. -/
structure WriteDescriptorSet where
  dstSet : DescriptorSet
  dstBinding : Nat
  descriptorType : DescriptorType
  sampler : Option Sampler
  imageView : ImageView
  imageLayout : ImageLayout
  deriving DecidableEq, Repr

/-- A storage-image write: `sampler = VK_NULL_HANDLE`, layout `GENERAL`. -/
def storage_write (dstSet : DescriptorSet) (dstBinding : Nat) (view : ImageView) :
    WriteDescriptorSet :=
  { dstSet := dstSet, dstBinding := dstBinding, descriptorType := .STORAGE_IMAGE,
    sampler := none, imageView := view, imageLayout := .GENERAL }

/-- A combined-image-sampler write with layout `SHADER_READ_ONLY_OPTIMAL`. -/
def sampler_write (dstSet : DescriptorSet) (dstBinding : Nat) (sampler : Sampler)
    (view : ImageView) : WriteDescriptorSet :=
  { dstSet := dstSet, dstBinding := dstBinding, descriptorType := .COMBINED_IMAGE_SAMPLER,
    sampler := some sampler, imageView := view, imageLayout := .SHADER_READ_ONLY_OPTIMAL }

/-- Function `write_descriptor_sets`: every descriptor write, in source order. -/
def write_descriptor_sets : List WriteDescriptorSet :=
  -- Ray Trace
  [storage_write .ray_trace_write_ds 0 ray_trace_view] ++
  [sampler_write .ray_trace_read_ds 0 .nearest_sampler ray_trace_view] ++
  -- Temporal Reprojection
  ((List.range 2).flatMap fun i =>
    [storage_write (.temporal_reprojection_write_ds i) 0 (color_view i),
     storage_write (.temporal_reprojection_write_ds i) 1 (history_length_view i)]) ++
  ((List.range 2).flatMap fun i =>
    [sampler_write (.temporal_reprojection_read_ds i) 0 .nearest_sampler (color_view i),
     sampler_write (.temporal_reprojection_read_ds i) 1 .nearest_sampler (history_length_view i)]) ++
  ((List.range 2).flatMap fun i =>
    [sampler_write (.temporal_reprojection_output_read_ds i) 0 .nearest_sampler (color_view i)]) ++
  ((List.range 2).flatMap fun i =>
    [sampler_write (.temporal_reprojection_output_bilinear_read_ds i) 0 .bilinear_sampler
      (color_view i)]) ++
  -- Downsample
  ((List.range 2).flatMap fun i =>
    [storage_write (.downsample_write_ds i) 0 (image_view_mip1 i),
     storage_write (.downsample_write_ds i) 1 (image_view_mip2 i),
     storage_write (.downsample_write_ds i) 2 (image_view_mip3 i),
     storage_write (.downsample_write_ds i) 3 (image_view_mip4 i)]) ++
  -- Gaussian Blur
  ((List.range 2).flatMap fun i =>
    [storage_write (.gaussian_blur_write_ds i) 0 (gaussian_blur_image_view i),
     sampler_write (.gaussian_blur_read_ds i) 0 .nearest_sampler (gaussian_blur_image_view i)]) ++
  -- Recurrent Blur
  [storage_write .recurrent_blur_write_ds 0 recurrent_blur_image_view] ++
  [sampler_write .recurrent_blur_read_ds 0 .nearest_sampler recurrent_blur_image_view] ++
  -- Upsample
  [storage_write .upsample_write_ds 0 upsample_image_view] ++
  [sampler_write .upsample_read_ds 0 .nearest_sampler upsample_image_view]

/-- Function `create_pipeline`: the descriptor set layouts of each pipeline layout,
in the order of the `add_descriptor_set_layout` calls. -/
def create_pipeline : Pipeline → List DescriptorSetLayout
  | .ray_trace =>
      [.scene_ds_layout, .storage_image_ds_layout, .per_frame_ds_layout, .g_buffer_ds_layout,
       .blue_noise_ds_layout]
  | .temporal_reprojection =>
      [.temporal_reprojection_write_ds_layout, .g_buffer_ds_layout, .g_buffer_ds_layout,
       .combined_sampler_ds_layout, .combined_sampler_ds_layout,
       .temporal_reprojection_read_ds_layout]
  | .downsample =>
      [.downsample_write_ds_layout, .combined_sampler_ds_layout]
  | .gaussian_blur =>
      [.storage_image_ds_layout, .combined_sampler_ds_layout,
       .temporal_reprojection_read_ds_layout, .g_buffer_ds_layout]
  | .recurrent_blur =>
      [.storage_image_ds_layout, .combined_sampler_ds_layout,
       .temporal_reprojection_read_ds_layout, .g_buffer_ds_layout]
  | .upsample =>
      [.storage_image_ds_layout, .combined_sampler_ds_layout, .g_buffer_ds_layout]

/-! ## Commands -/

/-- A `VkImageSubresourceRange` with aspect `VK_IMAGE_ASPECT_COLOR_BIT`. -/
structure SubresourceRange where
  baseMipLevel : Nat
  levelCount : Nat
  baseArrayLayer : Nat
  layerCount : Nat
  deriving DecidableEq, Repr

/-- The mip levels a subresource range covers. -/
def SubresourceRange.mips (r : SubresourceRange) : List Nat :=
  (List.range r.levelCount).map (fun k => r.baseMipLevel + k)

/-- The helper `memory_barrier(src_access, dst_access)`. -/
structure MemoryBarrier where
  srcAccessMask : Access
  dstAccessMask : Access
  deriving DecidableEq, Repr

/-- The helper `image_memory_barrier(image, old_layout, new_layout, range,
src_access, dst_access)`. -/
structure ImageMemoryBarrier where
  image : Image
  oldLayout : ImageLayout
  newLayout : ImageLayout
  subresourceRange : SubresourceRange
  srcAccessMask : Access
  dstAccessMask : Access
  deriving DecidableEq, Repr

/-- The push-constant blocks of the five pipelines that have one. -/
inductive PushConstants where
  | ray_trace (num_rays num_frames : Nat) (ray_length power bias : ℚ) (sampler_type : Nat)
  | temporal_reprojection (alpha : ℚ)
  | gaussian_blur (z_buffer_params : Vec4) (direction : Int × Int) (radius : Int)
  | recurrent_blur (z_buffer_params : Vec4) (radius : ℚ) (num_frames self_stabilize : Nat)
  | upsample (z_buffer_params : Vec4)
  deriving DecidableEq

/-- The commands this class records into the command buffer. -/
inductive Cmd where
  | set_image_layout (image : Image) (old_layout new_layout : ImageLayout)
      (range : SubresourceRange)
  | clear_color_image (image : Image) (layout : ImageLayout) (color : Vec4)
      (range : SubresourceRange)
  | pipeline_barrier (memory_barriers : List MemoryBarrier)
      (image_barriers : List ImageMemoryBarrier) (src_stage dst_stage : PipelineStage)
  | bind_pipeline (pipeline : Pipeline)
  | push_constants (layout : Pipeline) (constants : PushConstants)
  | bind_descriptor_sets (layout : Pipeline) (first_set : Nat) (sets : List DescriptorSet)
      (dynamic_offsets : List Nat)
  | dispatch (x y z : Nat)
  | generate_mipmaps (image : Image) (src_layout dst_layout : ImageLayout)
  deriving DecidableEq

/-! ## Arithmetic of the dispatch sizes -/

/-- Conversion `float(n)` of a non-negative integer: the nearest value with a
24-bit significand, ties to even.  The result is an integer. -/
def float_of_nat (n : Nat) : Nat :=
  if n < 2 ^ 24 then n
  else
    let e := Nat.log2 n - 23
    let q := n / 2 ^ e
    let r := n % 2 ^ e
    let h := 2 ^ (e - 1)
    if r < h then q * 2 ^ e
    else if r = h ∧ q % 2 = 0 then q * 2 ^ e
    else (q + 1) * 2 ^ e

/-- Conversion `(float)i` of a signed integer. -/
def float_of_int (i : Int) : ℚ :=
  if i < 0 then -((float_of_nat i.natAbs : Nat) : ℚ) else ((float_of_nat i.toNat : Nat) : ℚ)

/-- The expression `static_cast<uint32_t>(ceil(float(extent) / float(num_threads)))`.
For the divisors 8 and 32 of the source the float division is exact. -/
def group_count (extent num_threads : Nat) : Nat :=
  (Int.toNat (Int.ceil (((float_of_nat extent : Nat) : ℚ) / ((float_of_nat num_threads : Nat) : ℚ))))
    % 2 ^ 32

/-- Conversion of an `int` to `uint32_t`. -/
def uint32_of_int (i : Int) : Nat := Int.toNat (i % 2 ^ 32)

/-- Conversion of an `int` to `int32_t` (the identity on the range of `int`). -/
def int32_of_int (i : Int) : Int := (i + 2 ^ 31) % 2 ^ 32 - 2 ^ 31

/-! ## The recording functions -/

/-- The range `{ VK_IMAGE_ASPECT_COLOR_BIT, 0, 1, 0, 1 }`: mip level 0 only. -/
def mip0_range : SubresourceRange :=
  { baseMipLevel := 0, levelCount := 1, baseArrayLayer := 0, layerCount := 1 }

/-- The clear colour of `clear_images`: all four components `0.0f`. -/
def zero_color : Vec4 := { x := 0, y := 0, z := 0, w := 0 }

/-- Function `clear_images`. -/
def clear_images (self : State) : List Cmd :=
  if self.m_common_resources.first_frame then
    let subresource_range := mip0_range
    let color := zero_color
    [ .set_image_layout (.history_length_image (!self.m_common_resources.ping_pong).toNat)
        .UNDEFINED .GENERAL subresource_range,
      .set_image_layout (.color_image (!self.m_common_resources.ping_pong).toNat)
        .UNDEFINED .GENERAL subresource_range,
      .clear_color_image (.history_length_image (!self.m_common_resources.ping_pong).toNat)
        .GENERAL color subresource_range,
      .clear_color_image (.color_image (!self.m_common_resources.ping_pong).toNat)
        .GENERAL color subresource_range,
      .set_image_layout (.history_length_image (!self.m_common_resources.ping_pong).toNat)
        .GENERAL .SHADER_READ_ONLY_OPTIMAL subresource_range,
      .set_image_layout (.color_image (!self.m_common_resources.ping_pong).toNat)
        .GENERAL .SHADER_READ_ONLY_OPTIMAL subresource_range,
      .set_image_layout .recurrent_blur_image
        .UNDEFINED .SHADER_READ_ONLY_OPTIMAL subresource_range ]
  else
    []

/-- Function `ray_trace`. -/
def ray_trace (self : State) : List Cmd :=
  let subresource_range := mip0_range
  let memory_barriers : List MemoryBarrier :=
    [{ srcAccessMask := .SHADER_WRITE, dstAccessMask := .SHADER_READ }]
  let image_barriers : List ImageMemoryBarrier :=
    [{ image := .ray_trace_image, oldLayout := .UNDEFINED, newLayout := .GENERAL,
       subresourceRange := subresource_range,
       srcAccessMask := .SHADER_READ, dstAccessMask := .SHADER_WRITE }]
  let dynamic_offset := (self.m_common_resources.ubo_size * self.current_frame_idx) % 2 ^ 32
  let NUM_THREADS_X := 32
  let NUM_THREADS_Y := 32
  [ .pipeline_barrier memory_barriers image_barriers .FRAGMENT_SHADER .COMPUTE_SHADER,
    .bind_pipeline .ray_trace,
    .push_constants .ray_trace
      (.ray_trace (uint32_of_int self.m_ray_trace.num_rays) self.m_common_resources.num_frames
        self.m_ray_trace.ray_length self.m_ray_trace.power self.m_ray_trace.bias
        self.m_common_resources.sampler_type),
    .bind_descriptor_sets .ray_trace 0
      [.scene_ds, .ray_trace_write_ds, .per_frame_ds, .g_buffer_output_ds, .blue_noise_ds]
      [dynamic_offset],
    .dispatch (group_count self.m_width NUM_THREADS_X) (group_count self.m_height NUM_THREADS_Y) 1,
    .generate_mipmaps .ray_trace_image .GENERAL .SHADER_READ_ONLY_OPTIMAL ]

/-- Function `temporal_reprojection`. -/
def temporal_reprojection (self : State) : List Cmd :=
  let subresource_range := mip0_range
  let ping_pong := self.m_common_resources.ping_pong
  let NUM_THREADS_X := 32
  let NUM_THREADS_Y := 32
  [ .pipeline_barrier
      [{ srcAccessMask := .SHADER_READ, dstAccessMask := .SHADER_WRITE }]
      [{ image := .color_image ping_pong.toNat, oldLayout := .UNDEFINED, newLayout := .GENERAL,
         subresourceRange := subresource_range,
         srcAccessMask := .SHADER_READ, dstAccessMask := .SHADER_WRITE },
       { image := .history_length_image ping_pong.toNat, oldLayout := .UNDEFINED,
         newLayout := .GENERAL, subresourceRange := subresource_range,
         srcAccessMask := .SHADER_READ, dstAccessMask := .SHADER_WRITE }]
      .COMPUTE_SHADER .COMPUTE_SHADER,
    .bind_pipeline .temporal_reprojection,
    .push_constants .temporal_reprojection
      (.temporal_reprojection self.m_temporal_reprojection.alpha),
    .bind_descriptor_sets .temporal_reprojection 0
      [ .temporal_reprojection_write_ds ping_pong.toNat,
        .g_buffer_output_ds,
        .g_buffer_history_ds,
        .ray_trace_read_ds,
        if self.m_use_recurrent_blur && self.m_recurrent_blur.feedback then
          .recurrent_blur_read_ds
        else
          .temporal_reprojection_output_read_ds (!ping_pong).toNat,
        .temporal_reprojection_read_ds (!ping_pong).toNat ]
      [],
    .dispatch (group_count self.m_width NUM_THREADS_X) (group_count self.m_height NUM_THREADS_Y) 1,
    .pipeline_barrier
      [{ srcAccessMask := .SHADER_WRITE, dstAccessMask := .SHADER_READ }]
      [{ image := .color_image ping_pong.toNat, oldLayout := .GENERAL,
         newLayout := .SHADER_READ_ONLY_OPTIMAL, subresourceRange := subresource_range,
         srcAccessMask := .SHADER_WRITE, dstAccessMask := .SHADER_READ },
       { image := .history_length_image ping_pong.toNat, oldLayout := .GENERAL,
         newLayout := .SHADER_READ_ONLY_OPTIMAL, subresourceRange := subresource_range,
         srcAccessMask := .SHADER_WRITE, dstAccessMask := .SHADER_READ }]
      .COMPUTE_SHADER .COMPUTE_SHADER ]

/-- Function `downsample`. -/
def downsample (self : State) : List Cmd :=
  let subresource_range : SubresourceRange :=
    { baseMipLevel := 1, levelCount := 4, baseArrayLayer := 0, layerCount := 1 }
  let ping_pong := self.m_common_resources.ping_pong
  let w := (create_images self .recurrent_blur_image).width / 2
  let h := (create_images self .recurrent_blur_image).height / 2
  [ .pipeline_barrier
      [{ srcAccessMask := .SHADER_READ, dstAccessMask := .SHADER_WRITE }]
      [{ image := .color_image ping_pong.toNat, oldLayout := .UNDEFINED, newLayout := .GENERAL,
         subresourceRange := subresource_range,
         srcAccessMask := .SHADER_READ, dstAccessMask := .SHADER_WRITE }]
      .COMPUTE_SHADER .COMPUTE_SHADER,
    .bind_pipeline .downsample,
    .bind_descriptor_sets .downsample 0
      [ .downsample_write_ds ping_pong.toNat,
        .temporal_reprojection_output_bilinear_read_ds ping_pong.toNat ]
      [],
    .dispatch (group_count w 8) (group_count h 8) 1,
    .pipeline_barrier
      [{ srcAccessMask := .SHADER_WRITE, dstAccessMask := .SHADER_READ }]
      [{ image := .color_image ping_pong.toNat, oldLayout := .GENERAL,
         newLayout := .SHADER_READ_ONLY_OPTIMAL, subresourceRange := subresource_range,
         srcAccessMask := .SHADER_WRITE, dstAccessMask := .SHADER_READ }]
      .COMPUTE_SHADER .COMPUTE_SHADER ]

/-- Function `gaussian_blur`: the block commented `Vertical`, then the block
commented `Horizontal`. -/
def gaussian_blur (self : State) : List Cmd :=
  let NUM_THREADS_X := 8
  let NUM_THREADS_Y := 8
  let subresource_range := mip0_range
  let ping_pong := self.m_common_resources.ping_pong
  -- Vertical
  [ .set_image_layout (.gaussian_blur_image 0) .UNDEFINED .GENERAL subresource_range,
    .bind_pipeline .gaussian_blur,
    .push_constants .gaussian_blur
      (.gaussian_blur self.m_common_resources.z_buffer_params (1, 0)
        (int32_of_int self.m_gaussian_blur.blur_radius)),
    .bind_descriptor_sets .gaussian_blur 0
      [ .gaussian_blur_write_ds 0,
        .temporal_reprojection_output_read_ds ping_pong.toNat,
        .temporal_reprojection_read_ds ping_pong.toNat,
        .g_buffer_output_ds ]
      [],
    .dispatch
      (group_count (create_images self (.gaussian_blur_image 0)).width NUM_THREADS_X)
      (group_count (create_images self (.gaussian_blur_image 0)).height NUM_THREADS_Y) 1,
    .set_image_layout (.gaussian_blur_image 0) .GENERAL .SHADER_READ_ONLY_OPTIMAL
      subresource_range ] ++
  -- Horizontal
  [ .set_image_layout (.gaussian_blur_image 1) .UNDEFINED .GENERAL subresource_range,
    .bind_pipeline .gaussian_blur,
    .push_constants .gaussian_blur
      (.gaussian_blur self.m_common_resources.z_buffer_params (0, 1)
        (int32_of_int self.m_gaussian_blur.blur_radius)),
    .bind_descriptor_sets .gaussian_blur 0
      [ .gaussian_blur_write_ds 1,
        .gaussian_blur_read_ds 0,
        .temporal_reprojection_read_ds ping_pong.toNat,
        .g_buffer_output_ds ]
      [],
    .dispatch
      (group_count (create_images self (.gaussian_blur_image 0)).width NUM_THREADS_X)
      (group_count (create_images self (.gaussian_blur_image 0)).height NUM_THREADS_Y) 1,
    .set_image_layout (.gaussian_blur_image 1) .GENERAL .SHADER_READ_ONLY_OPTIMAL
      subresource_range ]

/-- Function `recurrent_blur`. -/
def recurrent_blur (self : State) : List Cmd :=
  let subresource_range := mip0_range
  let ping_pong := self.m_common_resources.ping_pong
  let NUM_THREADS_X := 32
  let NUM_THREADS_Y := 32
  [ .set_image_layout .recurrent_blur_image .UNDEFINED .GENERAL subresource_range,
    .bind_pipeline .recurrent_blur,
    .push_constants .recurrent_blur
      (.recurrent_blur self.m_common_resources.z_buffer_params
        (float_of_int self.m_recurrent_blur.blur_radius)
        self.m_common_resources.num_frames
        self.m_recurrent_blur.self_stabilize.toNat),
    .bind_descriptor_sets .recurrent_blur 0
      [ .recurrent_blur_write_ds,
        .temporal_reprojection_output_read_ds ping_pong.toNat,
        .temporal_reprojection_read_ds ping_pong.toNat,
        .g_buffer_output_ds ]
      [],
    .dispatch
      (group_count (create_images self .recurrent_blur_image).width NUM_THREADS_X)
      (group_count (create_images self .recurrent_blur_image).height NUM_THREADS_Y) 1,
    .set_image_layout .recurrent_blur_image .GENERAL .SHADER_READ_ONLY_OPTIMAL
      subresource_range ]

/-- Function `denoise`. -/
def denoise (self : State) : List Cmd :=
  temporal_reprojection self ++
  downsample self ++
  (if self.m_use_recurrent_blur then recurrent_blur self else gaussian_blur self)

/-- Function `upsample`. -/
def upsample (self : State) : List Cmd :=
  let subresource_range := mip0_range
  let NUM_THREADS_X := 32
  let NUM_THREADS_Y := 32
  [ .set_image_layout .upsample_image .UNDEFINED .GENERAL subresource_range,
    .bind_pipeline .upsample,
    .push_constants .upsample (.upsample self.m_common_resources.z_buffer_params),
    .bind_descriptor_sets .upsample 0
      [ .upsample_write_ds,
        if self.m_use_recurrent_blur then .recurrent_blur_read_ds else .gaussian_blur_read_ds 1,
        .g_buffer_output_ds ]
      [],
    .dispatch
      (group_count (create_images self .upsample_image).width NUM_THREADS_X)
      (group_count (create_images self .upsample_image).height NUM_THREADS_Y) 1,
    .set_image_layout .upsample_image .GENERAL .SHADER_READ_ONLY_OPTIMAL subresource_range ]

/-- Function `render`: the commands recorded for one frame. -/
def render (self : State) : List Cmd :=
  if self.m_enabled then
    clear_images self ++
    ray_trace self ++
    (if self.m_denoise then
       denoise self ++
       upsample self
     else
       [])
  else
    []

/-! ## Reading the command stream -/

/-- Whether a subresource range covers mip level `m`. -/
def SubresourceRange.covers (r : SubresourceRange) (m : Nat) : Bool :=
  r.baseMipLevel ≤ m && m < r.baseMipLevel + r.levelCount

/-- The image subresources (image, mip level) written into descriptor set `ds`
with descriptor type `t` by `write_descriptor_sets`. -/
def descriptor_images (t : DescriptorType) (ds : DescriptorSet) : List (Image × Nat) :=
  (write_descriptor_sets.filter (fun w => w.dstSet = ds ∧ w.descriptorType = t)).flatMap
    (fun w => w.imageView.mips.map (fun m => (w.imageView.image, m)))

/-- The image subresources a shader can write through `ds` (storage images). -/
def storage_images (ds : DescriptorSet) : List (Image × Nat) :=
  descriptor_images .STORAGE_IMAGE ds

/-- The image subresources a shader samples through `ds`. -/
def sampled_images (ds : DescriptorSet) : List (Image × Nat) :=
  descriptor_images .COMBINED_IMAGE_SAMPLER ds

/-- The images `ds` refers to through any of its descriptors. -/
def referenced_images (ds : DescriptorSet) : List Image :=
  (write_descriptor_sets.filter (fun w => w.dstSet = ds)).map (fun w => w.imageView.image)

/-- The pipeline and descriptor sets in force while a command stream is read.
Every `vkCmdBindDescriptorSets` of the source binds its whole array at first
set 0, so the sets in force are those of the most recent call. -/
structure Bound where
  pipeline : Option Pipeline
  sets : List DescriptorSet
  deriving DecidableEq

/-- The effect of one command on the bound pipeline and descriptor sets. -/
def Bound.step (b : Bound) : Cmd → Bound
  | .bind_pipeline p => { b with pipeline := some p }
  | .bind_descriptor_sets _ _ sets _ => { b with sets := sets }
  | _ => b

/-- One `vkCmdDispatch` together with what was bound when it was recorded and
the commands recorded before it in the same stream. -/
structure DispatchRecord where
  pipeline : Option Pipeline
  sets : List DescriptorSet
  before : List Cmd
  deriving DecidableEq

/-- The dispatches of a command stream, read from a given binding state and a
given list of commands already recorded. -/
def dispatches_from (b : Bound) (before : List Cmd) : List Cmd → List DispatchRecord
  | [] => []
  | .dispatch x y z :: cs =>
      { pipeline := b.pipeline, sets := b.sets, before := before } ::
        dispatches_from b (before ++ [.dispatch x y z]) cs
  | c :: cs => dispatches_from (b.step c) (before ++ [c]) cs

/-- The dispatches of a frame's command stream, in recording order. -/
def dispatches (cmds : List Cmd) : List DispatchRecord :=
  dispatches_from { pipeline := none, sets := [] } [] cmds

/-- The dispatches of a stream recorded with pipeline `p` bound. -/
def dispatches_of (p : Pipeline) (cmds : List Cmd) : List DispatchRecord :=
  (dispatches cmds).filter (fun d => d.pipeline = some p)

/-- The sequence of passes of a stream: the pipelines of its dispatches, with a
run of consecutive dispatches of one pipeline counted as one pass. -/
def pass_sequence (cmds : List Cmd) : List (Option Pipeline) :=
  ((dispatches cmds).map (fun d => d.pipeline)).destutter (fun a b => a ≠ b)

/-- Every descriptor set named by a `vkCmdBindDescriptorSets` of the stream. -/
def bound_sets (cmds : List Cmd) : List DescriptorSet :=
  cmds.flatMap fun c =>
    match c with
    | .bind_descriptor_sets _ _ sets _ => sets
    | _ => []

/-- The image subresources a dispatch can write. -/
def DispatchRecord.writes (d : DispatchRecord) : List (Image × Nat) :=
  d.sets.flatMap storage_images

/-- The image subresources a dispatch samples. -/
def DispatchRecord.reads (d : DispatchRecord) : List (Image × Nat) :=
  d.sets.flatMap sampled_images

/-- The ping-pong slot of a reprojection image (`color_image[i]` or
`history_length_image[i]`). -/
def Image.reprojection_slot : Image → Option Nat
  | .color_image i => some i
  | .history_length_image i => some i
  | _ => none

/-- The reprojection slots a dispatch samples. -/
def DispatchRecord.read_slots (d : DispatchRecord) : List Nat :=
  (d.reads.filterMap (fun x => x.1.reprojection_slot)).dedup

/-- The reprojection slots a dispatch writes. -/
def DispatchRecord.write_slots (d : DispatchRecord) : List Nat :=
  (d.writes.filterMap (fun x => x.1.reprojection_slot)).dedup

/-- Whether a command is a `vkCmdClearColorImage`. -/
def Cmd.is_clear : Cmd → Bool
  | .clear_color_image _ _ _ _ => true
  | _ => false

/-- Whether a command clears mip level `m` of `image` to zero. -/
def Cmd.clears_to_zero (image : Image) (m : Nat) : Cmd → Bool
  | .clear_color_image i _ color range => i = image && color = zero_color && range.covers m
  | _ => false

/-- Whether a command is a clear or a plain layout transition, the two kinds of
command `clear_images` records. -/
def Cmd.is_clear_or_layout : Cmd → Bool
  | .clear_color_image _ _ _ _ => true
  | .set_image_layout _ _ _ _ => true
  | _ => false

/-- Whether a command touches `image` outside a shader: a clear, a layout
transition, an image barrier or a mip generation on it. -/
def Cmd.touches (image : Image) : Cmd → Bool
  | .clear_color_image i _ _ _ => i = image
  | .set_image_layout i _ _ _ => i = image
  | .pipeline_barrier _ image_barriers _ _ => image_barriers.any (fun b => b.image = image)
  | .generate_mipmaps i _ _ => i = image
  | _ => false

/-- The layout of every image subresource. -/
def Layouts := Image → Nat → ImageLayout

/-- Put the mip levels of `image` covered by `range` into layout `new`. -/
def Layouts.transition (L : Layouts) (image : Image) (range : SubresourceRange)
    (new : ImageLayout) : Layouts :=
  fun i m => if i = image ∧ range.covers m = true then new else L i m

/-- The effect of one command on the image layouts. -/
def Layouts.step (L : Layouts) : Cmd → Layouts
  | .set_image_layout image _ new range => L.transition image range new
  | .pipeline_barrier _ image_barriers _ _ =>
      image_barriers.foldl (fun acc b => acc.transition b.image b.subresourceRange b.newLayout) L
  | .generate_mipmaps image _ dst => fun i m => if i = image then dst else L i m
  | _ => L

/-- The image layouts after a command stream. -/
def Layouts.after (L : Layouts) (cmds : List Cmd) : Layouts :=
  cmds.foldl Layouts.step L

/-- Whether an image is one of the two Gaussian blur images. -/
def Image.is_gaussian_blur : Image → Bool
  | .gaussian_blur_image _ => true
  | _ => false

/-- Whether an image is the recurrent blur image. -/
def Image.is_recurrent_blur : Image → Bool
  | .recurrent_blur_image => true
  | _ => false

/-- Whether a descriptor set is a denoised input: a set through which a shader
samples the output image of a blur pass. -/
def DescriptorSet.is_denoised_input (ds : DescriptorSet) : Bool :=
  (sampled_images ds).any (fun x => x.1.is_gaussian_blur || x.1.is_recurrent_blur)

/-- The descriptor set bound at set index `k` by the one dispatch of a stream. -/
def set_at (k : Nat) (cmds : List Cmd) : Option DescriptorSet :=
  match dispatches cmds with
  | [d] => d.sets[k]?
  | _ => none

/-- The record of a dispatch when the commands `pre` were recorded ahead of the
stream it was read from. -/
def DispatchRecord.shift (pre : List Cmd) (d : DispatchRecord) : DispatchRecord :=
  { d with before := pre ++ d.before }

/-! ## Concrete states -/

/-- A first frame with the recurrent strategy and feedback selected, at a
960 by 540 working resolution. -/
def first_frame_feedback_state : State :=
  { m_width := 960, m_height := 540, m_enabled := true, m_denoise := true,
    m_use_recurrent_blur := true,
    m_ray_trace := { num_rays := 2, ray_length := 7, power := 1, bias := 0 },
    m_temporal_reprojection := { alpha := 0 },
    m_gaussian_blur := { blur_radius := 5 },
    m_recurrent_blur := { blur_radius := 5, self_stabilize := true, feedback := true },
    m_common_resources :=
      { first_frame := true, ping_pong := false, num_frames := 0,
        sampler_type := 0, ubo_size := 256, z_buffer_params := zero_color },
    current_frame_idx := 0 }

/-- A first frame with the Gaussian strategy selected and feedback off. -/
def first_frame_gaussian_state : State :=
  { first_frame_feedback_state with
    m_use_recurrent_blur := false,
    m_recurrent_blur := { blur_radius := 5, self_stabilize := true, feedback := false } }

/-- A later frame in which the Gaussian strategy is selected while the feedback
toggle, set earlier under the recurrent strategy, is still set. -/
def gaussian_with_feedback_state : State :=
  { first_frame_feedback_state with
    m_use_recurrent_blur := false,
    m_common_resources :=
      { first_frame := false, ping_pong := true, num_frames := 12,
        sampler_type := 0, ubo_size := 256, z_buffer_params := zero_color } }

/-- Frame `n` of a run that starts at `first_frame_gaussian_state` and toggles the
ping-pong flag once per frame. -/
def gaussian_run (n : Nat) : State :=
  { first_frame_gaussian_state with
    m_common_resources :=
      { first_frame := decide (n = 0), ping_pong := n.bodd, num_frames := n,
        sampler_type := 0, ubo_size := 256, z_buffer_params := zero_color } }

/-- The constructor `RayTracedAO::RayTracedAO`: `m_width` and `m_height` are half
the swap-chain extents; `init` carries the member initialisers of the class
declaration. -/
def State.construct (swap_chain_width swap_chain_height : Nat) (init : State) : State :=
  { init with
    m_width := State.half_extent swap_chain_width,
    m_height := State.half_extent swap_chain_height }

/-- The half-resolution working images: raw AO, the two reprojection colour
images, the two history-length images, the two Gaussian images and the
recurrent-blur image. -/
def working_images : List Image :=
  [ .ray_trace_image, .color_image 0, .color_image 1, .history_length_image 0,
    .history_length_image 1, .gaussian_blur_image 0, .gaussian_blur_image 1,
    .recurrent_blur_image ]

/-- Whether a command is a `vkCmdDispatch`. -/
def Cmd.is_dispatch : Cmd → Bool
  | .dispatch _ _ _ => true
  | _ => false

/-- Whether a command is a pipeline barrier, an image-layout transition or a mip
generation. -/
def Cmd.is_sync : Cmd → Bool
  | .pipeline_barrier _ _ _ _ => true
  | .set_image_layout _ _ _ _ => true
  | .generate_mipmaps _ _ _ => true
  | _ => false

/-- Check that no dispatch of a stream follows an earlier dispatch without a
synchronising command in between; `pending` tells that a dispatch has been read
and no synchronising command since. -/
def dispatches_separated_from (pending : Bool) : List Cmd → Bool
  | [] => true
  | c :: cs =>
      if c.is_dispatch then !pending && dispatches_separated_from true cs
      else dispatches_separated_from (pending && !c.is_sync) cs

/-- The group counts of the dispatches of a stream, in order. -/
def dispatch_grids (cmds : List Cmd) : List (Nat × Nat × Nat) :=
  cmds.filterMap fun c =>
    match c with
    | .dispatch x y z => some (x, y, z)
    | _ => none

/-- The push-constant blocks of a stream, in order. -/
def pushed_constants (cmds : List Cmd) : List PushConstants :=
  cmds.filterMap fun c =>
    match c with
    | .push_constants _ constants => some constants
    | _ => none

/-- The image barriers of the pipeline barriers of a stream, in order. -/
def image_barriers_of (cmds : List Cmd) : List ImageMemoryBarrier :=
  cmds.flatMap fun c =>
    match c with
    | .pipeline_barrier _ image_barriers _ _ => image_barriers
    | _ => []

/-- The radius field of a Gaussian push-constant block. -/
def PushConstants.gaussian_radius : PushConstants → Option Int
  | .gaussian_blur _ _ radius => some radius
  | _ => none

/-- A run that selects the Gaussian strategy in its first frame and the
recurrent strategy with feedback in every later frame. -/
def strategy_switch_run (n : Nat) : State :=
  { first_frame_feedback_state with
    m_use_recurrent_blur := decide (n ≠ 0),
    m_common_resources :=
      { first_frame := decide (n = 0), ping_pong := n.bodd, num_frames := n,
        sampler_type := 0, ubo_size := 256, z_buffer_params := zero_color } }

/-- A run that selects the recurrent strategy with feedback in every frame. -/
def recurrent_run (n : Nat) : State :=
  { first_frame_feedback_state with
    m_common_resources :=
      { first_frame := decide (n = 0), ping_pong := n.bodd, num_frames := n,
        sampler_type := 0, ubo_size := 256, z_buffer_params := zero_color } }

/-- Whether a command is a `vkCmdPipelineBarrier` recorded through the helper
`pipeline_barrier`. -/
def Cmd.is_pipeline_barrier : Cmd → Bool
  | .pipeline_barrier _ _ _ _ => true
  | _ => false

/-- The memory barriers of the pipeline barrier recorded most recently before a
dispatch; empty when no pipeline barrier precedes it. -/
def DispatchRecord.memory_barriers_before (d : DispatchRecord) : List MemoryBarrier :=
  match (d.before.filter Cmd.is_pipeline_barrier).getLast? with
  | some (.pipeline_barrier memory_barriers _ _ _) => memory_barriers
  | _ => []

/-- The memory barriers of the pipeline barriers of a stream, in order. -/
def memory_barriers_of (cmds : List Cmd) : List MemoryBarrier :=
  cmds.flatMap fun c =>
    match c with
    | .pipeline_barrier memory_barriers _ _ _ => memory_barriers
    | _ => []

/-- The alpha field of a reprojection push-constant block. -/
def PushConstants.alpha : PushConstants → Option ℚ
  | .temporal_reprojection alpha => some alpha
  | _ => none

/-- The direction field of a Gaussian push-constant block. -/
def PushConstants.gaussian_direction : PushConstants → Option (Int × Int)
  | .gaussian_blur _ direction _ => some direction
  | _ => none

/-- Whether a command changes or discards the contents of `image` outside a
shader: a clear, a mip generation, or a layout transition, plain or through an
image barrier, whose old layout is `VK_IMAGE_LAYOUT_UNDEFINED`, after which the
contents are undefined. -/
def Cmd.overwrites (image : Image) : Cmd → Bool
  | .clear_color_image i _ _ _ => i = image
  | .set_image_layout i old_layout _ _ => i = image && old_layout = .UNDEFINED
  | .pipeline_barrier _ image_barriers _ _ =>
      image_barriers.any (fun b => b.image = image && b.oldLayout = .UNDEFINED)
  | .generate_mipmaps i _ _ => i = image
  | _ => false

/-- The layouts at a dispatch of a frame that starts with layouts `L` are right
for the dispatch: every subresource it can write is in the general layout and
every subresource it samples is in the shader-read-only layout. -/
def DispatchRecord.layouts_ok (L : Layouts) (d : DispatchRecord) : Prop :=
  (∀ x ∈ d.writes, L.after d.before x.1 x.2 = .GENERAL) ∧
  (∀ x ∈ d.reads, L.after d.before x.1 x.2 = .SHADER_READ_ONLY_OPTIMAL)

/-- The layouts at the start of frame `n` of a run whose frame 0 starts with
layouts `L0`. -/
def layouts_at (L0 : Layouts) (frames : Nat → State) : Nat → Layouts
  | 0 => L0
  | n + 1 => (layouts_at L0 frames n).after (render (frames n))

/-- The descriptors written into a descriptor set by `write_descriptor_sets`:
binding index, descriptor type and image view, in source order. -/
def descriptor_bindings (ds : DescriptorSet) : List (Nat × DescriptorType × ImageView) :=
  (write_descriptor_sets.filter (fun w => w.dstSet = ds)).map
    (fun w => (w.dstBinding, w.descriptorType, w.imageView))

/-- An image subresource sampled by dispatch `d` of frame `n` of a run was
cleared or written earlier: by a clear or a dispatch recorded before `d` in
frame `n`, or by a clear or a dispatch of an earlier frame. -/
def initialised_earlier (frames : Nat → State) (n : Nat) (d : DispatchRecord)
    (x : Image × Nat) : Prop :=
  (∃ c ∈ d.before, c.clears_to_zero x.1 x.2 = true) ∨
  (∃ e ∈ dispatches d.before, x ∈ e.writes) ∨
  ∃ k, k < n ∧
    ((∃ c ∈ render (frames k), c.clears_to_zero x.1 x.2 = true) ∨
      (∃ e ∈ dispatches (render (frames k)), x ∈ e.writes))

/-- A state whose configured temporal blend factor is 0.7. -/
def alpha_out_of_range_state : State :=
  { first_frame_gaussian_state with m_temporal_reprojection := { alpha := 7 / 10 } }

/-- A run with AO enabled throughout and the ping-pong flag toggled once per
frame, in which denoising is off in frame 0 and on in every later frame. -/
def denoise_late_run (n : Nat) : State :=
  { first_frame_gaussian_state with
    m_denoise := decide (n ≠ 0),
    m_common_resources :=
      { first_frame := decide (n = 0), ping_pong := n.bodd, num_frames := n,
        sampler_type := 0, ubo_size := 256, z_buffer_params := zero_color } }

/-! ## Theorems -/

/-- The temporal-reprojection dispatch of an enabled, denoising frame: it is the
only dispatch of its pipeline, it writes slot `ping_pong` and samples slot
`!ping_pong` of the reprojection images. -/
theorem temporal_reprojection_dispatch_slots (self : State)
    (he : self.m_enabled = true) (hd : self.m_denoise = true) :
    ∃ d, dispatches_of .temporal_reprojection (render self) = [d] ∧
      d.write_slots = [self.m_common_resources.ping_pong.toNat] ∧
      d.read_slots = [(!self.m_common_resources.ping_pong).toNat] := by
  cases hf : self.m_common_resources.first_frame <;>
  cases hr : self.m_use_recurrent_blur <;>
  cases hb : self.m_recurrent_blur.feedback <;>
  cases hp : self.m_common_resources.ping_pong <;>
    simp [dispatches_of, render, he, hd, hf, hr, hb, hp, denoise, clear_images, ray_trace,
      temporal_reprojection, downsample, gaussian_blur, recurrent_blur, upsample, dispatches,
      dispatches_from, Bound.step] <;>
    exact ⟨rfl, rfl⟩

/-- C1: in a frame with AO enabled and denoising on, `render` records, in this
order and each once, RayTrace, TemporalReprojection, Downsample, one blur pass
(RecurrentBlur exactly when the recurrent-blur flag is set, GaussianBlur
otherwise) and Upsample; all that precedes the RayTrace pass is the output of
`clear_images`, which is empty unless the frame is a first frame and otherwise
holds only clears and layout transitions. -/
theorem C1_render_pass_order (self : State)
    (he : self.m_enabled = true) (hd : self.m_denoise = true) :
    render self =
        clear_images self ++ ray_trace self ++ temporal_reprojection self ++ downsample self ++
          (if self.m_use_recurrent_blur then recurrent_blur self else gaussian_blur self) ++
          upsample self ∧
      pass_sequence (render self) =
        [some .ray_trace, some .temporal_reprojection, some .downsample,
         if self.m_use_recurrent_blur then some .recurrent_blur else some .gaussian_blur,
         some .upsample] ∧
      (pass_sequence (clear_images self) = [] ∧
        pass_sequence (ray_trace self) = [some .ray_trace] ∧
        pass_sequence (temporal_reprojection self) = [some .temporal_reprojection] ∧
        pass_sequence (downsample self) = [some .downsample] ∧
        pass_sequence (gaussian_blur self) = [some .gaussian_blur] ∧
        pass_sequence (recurrent_blur self) = [some .recurrent_blur] ∧
        pass_sequence (upsample self) = [some .upsample]) ∧
      (∃ d rest, dispatches (render self) = d :: rest ∧ d.pipeline = some .ray_trace ∧
        d.before = clear_images self ++ (ray_trace self).take 4) ∧
      (∀ c ∈ clear_images self,
        self.m_common_resources.first_frame = true ∧ c.is_clear_or_layout = true) := by
  refine ⟨?_, ?_, ?_, ?_, ?_⟩
  · simp [render, he, hd, denoise]
  · cases hf : self.m_common_resources.first_frame <;>
    cases hr : self.m_use_recurrent_blur <;>
      simp [pass_sequence, render, he, hd, hf, hr, denoise, clear_images, ray_trace,
        temporal_reprojection, downsample, gaussian_blur, recurrent_blur, upsample, dispatches,
        dispatches_from, Bound.step, List.destutter, List.destutter']
  · cases hf : self.m_common_resources.first_frame <;>
      simp [pass_sequence, hf, clear_images, ray_trace,
        temporal_reprojection, downsample, gaussian_blur, recurrent_blur, upsample, dispatches,
        dispatches_from, Bound.step, List.destutter, List.destutter']
  · cases hf : self.m_common_resources.first_frame <;>
    cases hr : self.m_use_recurrent_blur <;>
      simp [render, he, hd, hf, hr, denoise, clear_images, ray_trace,
        temporal_reprojection, downsample, gaussian_blur, recurrent_blur, upsample, dispatches,
        dispatches_from, Bound.step]
  · intro c hc
    cases hf : self.m_common_resources.first_frame
    · simp [clear_images, hf] at hc
    · simp [clear_images, hf] at hc
      rcases hc with h | h | h | h | h | h | h <;> simp [h, Cmd.is_clear_or_layout]

/-- C1 at a concrete first frame with the recurrent strategy. -/
theorem C1_render_pass_order_witness :
    first_frame_feedback_state.m_enabled = true ∧
      first_frame_feedback_state.m_denoise = true ∧
      pass_sequence (render first_frame_feedback_state) =
        [some .ray_trace, some .temporal_reprojection, some .downsample,
         some .recurrent_blur, some .upsample] :=
  ⟨rfl, rfl, (C1_render_pass_order first_frame_feedback_state rfl rfl).2.1⟩

/-- The single dispatch of `temporal_reprojection` and what is bound at it. -/
theorem dispatches_temporal_reprojection (self : State) :
    dispatches (temporal_reprojection self) =
      [{ pipeline := some .temporal_reprojection,
         sets :=
          [ .temporal_reprojection_write_ds self.m_common_resources.ping_pong.toNat,
            .g_buffer_output_ds,
            .g_buffer_history_ds,
            .ray_trace_read_ds,
            if self.m_use_recurrent_blur && self.m_recurrent_blur.feedback then
              .recurrent_blur_read_ds
            else
              .temporal_reprojection_output_read_ds (!self.m_common_resources.ping_pong).toNat,
            .temporal_reprojection_read_ds (!self.m_common_resources.ping_pong).toNat ],
         before := (temporal_reprojection self).take 4 }] :=
  rfl

/-- C2: for both values of the ping-pong flag, `temporal_reprojection` records one
dispatch; it binds the write set of slot `ping_pong` at set index 0 and the
colour/history-length read set of slot `!ping_pong` at set index 5; the two slot
indices differ; the dispatch writes slot `ping_pong` only, samples slot
`!ping_pong` only, and samples no image subresource that it writes. -/
theorem C2_reprojection_reads_other_slot (self : State) :
    ∃ d, dispatches (temporal_reprojection self) = [d] ∧
      d.pipeline = some .temporal_reprojection ∧
      d.sets[0]? =
        some (.temporal_reprojection_write_ds self.m_common_resources.ping_pong.toNat) ∧
      d.sets[5]? =
        some (.temporal_reprojection_read_ds (!self.m_common_resources.ping_pong).toNat) ∧
      self.m_common_resources.ping_pong.toNat ≠ (!self.m_common_resources.ping_pong).toNat ∧
      d.write_slots = [self.m_common_resources.ping_pong.toNat] ∧
      d.read_slots = [(!self.m_common_resources.ping_pong).toNat] ∧
      self.m_common_resources.ping_pong.toNat ∉ d.read_slots ∧
      (∀ x ∈ d.reads, x ∉ d.writes) := by
  refine ⟨_, dispatches_temporal_reprojection self, rfl, rfl, rfl, ?_⟩
  simp only [DispatchRecord.write_slots, DispatchRecord.read_slots, DispatchRecord.writes,
    DispatchRecord.reads]
  cases self.m_use_recurrent_blur <;>
  cases self.m_recurrent_blur.feedback <;>
  cases self.m_common_resources.ping_pong <;>
    decide

/-- C3: over a run of frames with AO and denoising enabled, feedback off and the
ping-pong flag toggled once between consecutive frames, the reprojection slot
that TemporalReprojection samples in frame `n + 1` is the slot it wrote in
frame `n`, and the slot it writes in frame `n + 1` is the slot it sampled in
frame `n`. -/
theorem C3_ping_pong_alternates (frames : Nat → State)
    (hrun : ∀ n, (frames n).m_enabled = true ∧ (frames n).m_denoise = true ∧
      (frames n).m_recurrent_blur.feedback = false)
    (htoggle : ∀ n, (frames (n + 1)).m_common_resources.ping_pong =
      !(frames n).m_common_resources.ping_pong)
    (n : Nat) :
    ∃ d d', dispatches_of .temporal_reprojection (render (frames n)) = [d] ∧
      dispatches_of .temporal_reprojection (render (frames (n + 1))) = [d'] ∧
      d.write_slots.length = 1 ∧ d.read_slots.length = 1 ∧
      d'.read_slots = d.write_slots ∧ d'.write_slots = d.read_slots := by
  obtain ⟨d, hd, hw, hrd⟩ :=
    temporal_reprojection_dispatch_slots (frames n) (hrun n).1 (hrun n).2.1
  obtain ⟨d', hd', hw', hrd'⟩ :=
    temporal_reprojection_dispatch_slots (frames (n + 1)) (hrun (n + 1)).1 (hrun (n + 1)).2.1
  refine ⟨d, d', hd, hd', ?_, ?_, ?_, ?_⟩
  · simp [hw]
  · simp [hrd]
  · rw [hrd', hw, htoggle n]; simp
  · rw [hw', hrd, htoggle n]

/-- C3 on the run `gaussian_run`, between its frames 3 and 4. -/
theorem C3_ping_pong_alternates_witness :
    (∀ n, (gaussian_run n).m_enabled = true ∧ (gaussian_run n).m_denoise = true ∧
      (gaussian_run n).m_recurrent_blur.feedback = false) ∧
    (∀ n, (gaussian_run (n + 1)).m_common_resources.ping_pong =
      !(gaussian_run n).m_common_resources.ping_pong) ∧
    ∃ d d', dispatches_of .temporal_reprojection (render (gaussian_run 3)) = [d] ∧
      dispatches_of .temporal_reprojection (render (gaussian_run (3 + 1))) = [d'] ∧
      d.write_slots.length = 1 ∧ d.read_slots.length = 1 ∧
      d'.read_slots = d.write_slots ∧ d'.write_slots = d.read_slots :=
  ⟨fun _ => ⟨rfl, rfl, rfl⟩, fun n => by simp [gaussian_run, Nat.bodd_succ],
    C3_ping_pong_alternates gaussian_run (fun _ => ⟨rfl, rfl, rfl⟩)
      (fun n => by simp [gaussian_run, Nat.bodd_succ]) 3⟩

/-- Reading a concatenated stream: the dispatches of the first part, then those
of the second part read from the state the first part leaves. -/
theorem dispatches_from_append (b : Bound) (pre xs ys : List Cmd) :
    dispatches_from b pre (xs ++ ys) =
      dispatches_from b pre xs ++ dispatches_from (xs.foldl Bound.step b) (pre ++ xs) ys := by
  induction xs generalizing b pre with
  | nil => simp [dispatches_from]
  | cons c cs ih =>
    cases c <;> simp [dispatches_from, Bound.step, ih, List.append_assoc]

theorem dispatches_from_clear_images (self : State) (b : Bound) (pre : List Cmd) :
    dispatches_from b pre (clear_images self) = [] := by
  cases hf : self.m_common_resources.first_frame <;>
    simp [clear_images, hf, dispatches_from]

theorem dispatches_from_ray_trace (self : State) (b : Bound) (pre : List Cmd) :
    dispatches_from b pre (ray_trace self) =
      (dispatches (ray_trace self)).map (DispatchRecord.shift pre) := by
  simp [ray_trace, dispatches, dispatches_from, Bound.step, DispatchRecord.shift]

theorem dispatches_from_temporal_reprojection (self : State) (b : Bound) (pre : List Cmd) :
    dispatches_from b pre (temporal_reprojection self) =
      (dispatches (temporal_reprojection self)).map (DispatchRecord.shift pre) := by
  simp [temporal_reprojection, dispatches, dispatches_from, Bound.step, DispatchRecord.shift]

theorem dispatches_from_downsample (self : State) (b : Bound) (pre : List Cmd) :
    dispatches_from b pre (downsample self) =
      (dispatches (downsample self)).map (DispatchRecord.shift pre) := by
  simp [downsample, dispatches, dispatches_from, Bound.step, DispatchRecord.shift]

theorem dispatches_from_gaussian_blur (self : State) (b : Bound) (pre : List Cmd) :
    dispatches_from b pre (gaussian_blur self) =
      (dispatches (gaussian_blur self)).map (DispatchRecord.shift pre) := by
  simp [gaussian_blur, dispatches, dispatches_from, Bound.step, DispatchRecord.shift]

theorem dispatches_from_recurrent_blur (self : State) (b : Bound) (pre : List Cmd) :
    dispatches_from b pre (recurrent_blur self) =
      (dispatches (recurrent_blur self)).map (DispatchRecord.shift pre) := by
  simp [recurrent_blur, dispatches, dispatches_from, Bound.step, DispatchRecord.shift]

theorem dispatches_from_upsample (self : State) (b : Bound) (pre : List Cmd) :
    dispatches_from b pre (upsample self) =
      (dispatches (upsample self)).map (DispatchRecord.shift pre) := by
  simp [upsample, dispatches, dispatches_from, Bound.step, DispatchRecord.shift]

/-- The command stream of an enabled, denoising frame, pass by pass. -/
theorem render_eq (self : State)
    (he : self.m_enabled = true) (hd : self.m_denoise = true) :
    render self =
      clear_images self ++ ray_trace self ++ temporal_reprojection self ++ downsample self ++
        (if self.m_use_recurrent_blur then recurrent_blur self else gaussian_blur self) ++
        upsample self := by
  simp [render, he, hd, denoise]

/-- The dispatches of an enabled, denoising frame, pass by pass, each with the
commands of the earlier passes ahead of it. -/
theorem dispatches_render (self : State)
    (he : self.m_enabled = true) (hd : self.m_denoise = true) :
    dispatches (render self) =
      (dispatches (ray_trace self)).map (DispatchRecord.shift (clear_images self)) ++
      (dispatches (temporal_reprojection self)).map
        (DispatchRecord.shift (clear_images self ++ ray_trace self)) ++
      (dispatches (downsample self)).map
        (DispatchRecord.shift (clear_images self ++ ray_trace self ++
          temporal_reprojection self)) ++
      (dispatches (if self.m_use_recurrent_blur then recurrent_blur self
          else gaussian_blur self)).map
        (DispatchRecord.shift (clear_images self ++ ray_trace self ++
          temporal_reprojection self ++ downsample self)) ++
      (dispatches (upsample self)).map
        (DispatchRecord.shift (clear_images self ++ ray_trace self ++
          temporal_reprojection self ++ downsample self ++
          (if self.m_use_recurrent_blur then recurrent_blur self else gaussian_blur self))) := by
  rw [render_eq self he hd]
  conv_lhs => rw [dispatches]
  rw [dispatches_from_append, dispatches_from_append, dispatches_from_append,
    dispatches_from_append, dispatches_from_append, dispatches_from_clear_images,
    dispatches_from_ray_trace, dispatches_from_temporal_reprojection,
    dispatches_from_downsample, dispatches_from_upsample]
  cases self.m_use_recurrent_blur
  · simp only [Bool.false_eq_true, if_false]
    rw [dispatches_from_gaussian_blur]
    simp only [List.nil_append]
  · simp only [if_true]
    rw [dispatches_from_recurrent_blur]
    simp only [List.nil_append]

/-- The single dispatch of `ray_trace`. -/
theorem dispatches_ray_trace (self : State) :
    dispatches (ray_trace self) =
      [{ pipeline := some .ray_trace,
         sets := [.scene_ds, .ray_trace_write_ds, .per_frame_ds, .g_buffer_output_ds,
           .blue_noise_ds],
         before := (ray_trace self).take 4 }] :=
  rfl

/-- The single dispatch of `downsample`. -/
theorem dispatches_downsample (self : State) :
    dispatches (downsample self) =
      [{ pipeline := some .downsample,
         sets := [.downsample_write_ds self.m_common_resources.ping_pong.toNat,
           .temporal_reprojection_output_bilinear_read_ds
             self.m_common_resources.ping_pong.toNat],
         before := (downsample self).take 3 }] :=
  rfl

/-- The two dispatches of `gaussian_blur`. -/
theorem dispatches_gaussian_blur (self : State) :
    dispatches (gaussian_blur self) =
      [{ pipeline := some .gaussian_blur,
         sets := [.gaussian_blur_write_ds 0,
           .temporal_reprojection_output_read_ds self.m_common_resources.ping_pong.toNat,
           .temporal_reprojection_read_ds self.m_common_resources.ping_pong.toNat,
           .g_buffer_output_ds],
         before := (gaussian_blur self).take 4 },
       { pipeline := some .gaussian_blur,
         sets := [.gaussian_blur_write_ds 1,
           .gaussian_blur_read_ds 0,
           .temporal_reprojection_read_ds self.m_common_resources.ping_pong.toNat,
           .g_buffer_output_ds],
         before := (gaussian_blur self).take 10 }] :=
  rfl

/-- The single dispatch of `recurrent_blur`. -/
theorem dispatches_recurrent_blur (self : State) :
    dispatches (recurrent_blur self) =
      [{ pipeline := some .recurrent_blur,
         sets := [.recurrent_blur_write_ds,
           .temporal_reprojection_output_read_ds self.m_common_resources.ping_pong.toNat,
           .temporal_reprojection_read_ds self.m_common_resources.ping_pong.toNat,
           .g_buffer_output_ds],
         before := (recurrent_blur self).take 4 }] :=
  rfl

/-- The single dispatch of `upsample`. -/
theorem dispatches_upsample (self : State) :
    dispatches (upsample self) =
      [{ pipeline := some .upsample,
         sets := [.upsample_write_ds,
           if self.m_use_recurrent_blur then .recurrent_blur_read_ds
           else .gaussian_blur_read_ds 1,
           .g_buffer_output_ds],
         before := (upsample self).take 4 }] :=
  rfl

/-- The TemporalReprojection dispatch of an enabled, denoising frame, with the
commands recorded before it. -/
theorem dispatches_of_temporal_reprojection_render (self : State)
    (he : self.m_enabled = true) (hd : self.m_denoise = true) :
    dispatches_of .temporal_reprojection (render self) =
      [{ pipeline := some .temporal_reprojection,
         sets :=
          [ .temporal_reprojection_write_ds self.m_common_resources.ping_pong.toNat,
            .g_buffer_output_ds,
            .g_buffer_history_ds,
            .ray_trace_read_ds,
            if self.m_use_recurrent_blur && self.m_recurrent_blur.feedback then
              .recurrent_blur_read_ds
            else
              .temporal_reprojection_output_read_ds (!self.m_common_resources.ping_pong).toNat,
            .temporal_reprojection_read_ds (!self.m_common_resources.ping_pong).toNat ],
         before := clear_images self ++ ray_trace self ++ (temporal_reprojection self).take 4 }] := by
  rw [dispatches_of, dispatches_render self he hd, dispatches_ray_trace,
    dispatches_temporal_reprojection, dispatches_downsample, dispatches_upsample]
  cases self.m_use_recurrent_blur
  · simp [dispatches_gaussian_blur, DispatchRecord.shift]
  · simp [dispatches_recurrent_blur, DispatchRecord.shift]

/-- The previous-frame images sampled by TemporalReprojection on a first frame
are cleared earlier in the frame whenever the feedback path is not taken: the
images behind the sets at indices 4 and 5 are then those of slot `!ping_pong`. -/
theorem first_frame_history_cleared_without_feedback (self : State)
    (he : self.m_enabled = true) (hd : self.m_denoise = true)
    (hf : self.m_common_resources.first_frame = true)
    (hfb : (self.m_use_recurrent_blur && self.m_recurrent_blur.feedback) = false) :
    ∃ d, dispatches_of .temporal_reprojection (render self) = [d] ∧
      ∀ x ∈ (d.sets.drop 4).flatMap sampled_images,
        ∃ c ∈ d.before, c.clears_to_zero x.1 x.2 = true := by
  refine ⟨_, dispatches_of_temporal_reprojection_render self he hd, ?_⟩
  simp only [hfb, clear_images, hf, if_true, List.drop]
  cases self.m_common_resources.ping_pong
  · have hs : ([DescriptorSet.temporal_reprojection_output_read_ds (!false).toNat,
        DescriptorSet.temporal_reprojection_read_ds (!false).toNat].flatMap sampled_images) =
        [(.color_image 1, 0), (.color_image 1, 0), (.history_length_image 1, 0)] := by decide
    intro x hx
    simp only [Bool.false_eq_true, if_false] at hx
    rw [hs] at hx
    simp only [List.mem_cons, List.mem_singleton, List.not_mem_nil, or_false] at hx
    rcases hx with h | h | h <;> subst h
    · exact ⟨.clear_color_image (.color_image 1) .GENERAL zero_color mip0_range,
        by simp, by decide⟩
    · exact ⟨.clear_color_image (.color_image 1) .GENERAL zero_color mip0_range,
        by simp, by decide⟩
    · exact ⟨.clear_color_image (.history_length_image 1) .GENERAL zero_color mip0_range,
        by simp, by decide⟩
  · have hs : ([DescriptorSet.temporal_reprojection_output_read_ds (!true).toNat,
        DescriptorSet.temporal_reprojection_read_ds (!true).toNat].flatMap sampled_images) =
        [(.color_image 0, 0), (.color_image 0, 0), (.history_length_image 0, 0)] := by decide
    intro x hx
    simp only [Bool.false_eq_true, if_false] at hx
    rw [hs] at hx
    simp only [List.mem_cons, List.mem_singleton, List.not_mem_nil, or_false] at hx
    rcases hx with h | h | h <;> subst h
    · exact ⟨.clear_color_image (.color_image 0) .GENERAL zero_color mip0_range,
        by simp, by decide⟩
    · exact ⟨.clear_color_image (.color_image 0) .GENERAL zero_color mip0_range,
        by simp, by decide⟩
    · exact ⟨.clear_color_image (.history_length_image 0) .GENERAL zero_color mip0_range,
        by simp, by decide⟩

/-- C4 (the code at the failing input): on a first frame with the recurrent
strategy and feedback selected, TemporalReprojection binds the recurrent-blur
read set at set index 4 and so samples mip 0 of the recurrent-blur image, while
no command recorded before that dispatch clears the image and no earlier
dispatch writes it: the only earlier command on the image is the layout
transition from `UNDEFINED` to `SHADER_READ_ONLY_OPTIMAL`. -/
theorem C4_first_frame_feedback_samples_uncleared_image :
    ∃ d, dispatches_of .temporal_reprojection (render first_frame_feedback_state) = [d] ∧
      d.sets[4]? = some .recurrent_blur_read_ds ∧
      (Image.recurrent_blur_image, 0) ∈ d.reads ∧
      (∀ c ∈ d.before, c.clears_to_zero .recurrent_blur_image 0 = false) ∧
      (∀ e ∈ dispatches d.before, (Image.recurrent_blur_image, 0) ∉ e.writes) ∧
      d.before.filter (fun c => c.touches .recurrent_blur_image) =
        [.set_image_layout .recurrent_blur_image .UNDEFINED .SHADER_READ_ONLY_OPTIMAL
          mip0_range] := by
  refine ⟨_, rfl, ?_, ?_, ?_, ?_, ?_⟩ <;> decide

/-- C5: on a first frame, for both values of the ping-pong flag, `clear_images`
records exactly two clears, of `history_length_image[!ping_pong]` and
`color_image[!ping_pong]`, each to zero over the range that covers mip level 0
and no other level; whatever the layouts were, both images end in the
shader-read-only layout; no command of `clear_images` touches an image of slot
`ping_pong`; and the cleared slot is the slot TemporalReprojection samples in
the same frame. -/
theorem C5_clear_images_first_frame (self : State)
    (hf : self.m_common_resources.first_frame = true) :
    (clear_images self).filter Cmd.is_clear =
        [ .clear_color_image
            (.history_length_image (!self.m_common_resources.ping_pong).toNat)
            .GENERAL zero_color mip0_range,
          .clear_color_image
            (.color_image (!self.m_common_resources.ping_pong).toNat)
            .GENERAL zero_color mip0_range ] ∧
      (∀ m, mip0_range.covers m = true ↔ m = 0) ∧
      (∀ L : Layouts,
        L.after (clear_images self)
            (.history_length_image (!self.m_common_resources.ping_pong).toNat) 0 =
          .SHADER_READ_ONLY_OPTIMAL ∧
        L.after (clear_images self)
            (.color_image (!self.m_common_resources.ping_pong).toNat) 0 =
          .SHADER_READ_ONLY_OPTIMAL) ∧
      (∀ c ∈ clear_images self,
        c.touches (.color_image self.m_common_resources.ping_pong.toNat) = false ∧
        c.touches (.history_length_image self.m_common_resources.ping_pong.toNat) = false) ∧
      (∃ d, dispatches (temporal_reprojection self) = [d] ∧
        d.read_slots = [(!self.m_common_resources.ping_pong).toNat]) := by
  refine ⟨?_, ?_, ?_, ?_, ?_⟩
  · simp [clear_images, hf, Cmd.is_clear]
  · intro m
    simp [mip0_range, SubresourceRange.covers]
  · intro L
    cases hp : self.m_common_resources.ping_pong <;>
      simp [clear_images, hf, hp, Layouts.after, Layouts.step, Layouts.transition, mip0_range,
        SubresourceRange.covers]
  · intro c hc
    simp only [clear_images, hf, if_true] at hc
    cases hp : self.m_common_resources.ping_pong <;> rw [hp] at hc <;>
      simp only [List.mem_cons, List.mem_singleton, List.not_mem_nil, or_false] at hc <;>
      rcases hc with h | h | h | h | h | h | h <;> subst h <;> decide
  · refine ⟨_, dispatches_temporal_reprojection self, ?_⟩
    simp only [DispatchRecord.read_slots, DispatchRecord.reads]
    cases self.m_use_recurrent_blur <;>
    cases self.m_recurrent_blur.feedback <;>
    cases self.m_common_resources.ping_pong <;>
      decide

/-- C5 at the first frame `first_frame_gaussian_state`. -/
theorem C5_clear_images_first_frame_witness :
    first_frame_gaussian_state.m_common_resources.first_frame = true ∧
      (clear_images first_frame_gaussian_state).filter Cmd.is_clear =
        [ .clear_color_image (.history_length_image 1) .GENERAL zero_color mip0_range,
          .clear_color_image (.color_image 1) .GENERAL zero_color mip0_range ] :=
  ⟨rfl, (C5_clear_images_first_frame first_frame_gaussian_state rfl).1⟩

/-- C6: when the first-frame flag is false `clear_images` records nothing, so it
leaves every image layout as it was; the frame's stream then begins with the
commands of `ray_trace`, and the commands ahead of the RayTrace dispatch are
`ray_trace`'s own first four, none of which touches a reprojection image or the
recurrent-blur image. -/
theorem C6_no_clear_after_first_frame (self : State)
    (hf : self.m_common_resources.first_frame = false) :
    clear_images self = [] ∧
      (∀ L : Layouts, L.after (clear_images self) = L) ∧
      (self.m_enabled = true →
        render self =
          ray_trace self ++ (if self.m_denoise then denoise self ++ upsample self else [])) ∧
      (self.m_enabled = true →
        ∃ d rest, dispatches (render self) = d :: rest ∧ d.pipeline = some .ray_trace ∧
          d.before = (ray_trace self).take 4 ∧
          ∀ c ∈ d.before, ∀ i,
            c.touches (.color_image i) = false ∧
            c.touches (.history_length_image i) = false ∧
            c.touches .recurrent_blur_image = false ∧
            c.is_clear = false) := by
  have h0 : clear_images self = [] := by simp [clear_images, hf]
  refine ⟨h0, ?_, ?_, ?_⟩
  · intro L
    rw [h0]
    rfl
  · intro he
    simp [render, he, h0]
  · intro he
    have hr : render self =
        ray_trace self ++ (if self.m_denoise then denoise self ++ upsample self else []) := by
      simp [render, he, h0]
    rw [hr, dispatches, dispatches_from_append, dispatches_from_ray_trace,
      dispatches_ray_trace]
    refine ⟨_, _, rfl, rfl, rfl, ?_⟩
    intro c hc i
    simp only [DispatchRecord.shift, List.nil_append, ray_trace, List.take, List.mem_cons,
      List.mem_singleton, List.not_mem_nil, or_false] at hc
    rcases hc with h | h | h | h <;> subst h <;> simp [Cmd.touches, Cmd.is_clear]

/-- C6 at frame 5 of the run `gaussian_run`. -/
theorem C6_no_clear_after_first_frame_witness :
    (gaussian_run 5).m_common_resources.first_frame = false ∧
      clear_images (gaussian_run 5) = [] :=
  ⟨rfl, (C6_no_clear_after_first_frame (gaussian_run 5) rfl).1⟩

/-- The Upsample dispatch of an enabled, denoising frame is the one dispatch of
`upsample`, with the earlier passes ahead of it. -/
theorem dispatches_of_upsample_render (self : State)
    (he : self.m_enabled = true) (hd : self.m_denoise = true) :
    (dispatches_of .upsample (render self)).map (fun d => d.sets) =
      (dispatches (upsample self)).map (fun d => d.sets) := by
  rw [dispatches_of, dispatches_render self he hd, dispatches_ray_trace,
    dispatches_temporal_reprojection, dispatches_downsample, dispatches_upsample]
  cases self.m_use_recurrent_blur
  · simp [dispatches_gaussian_blur, DispatchRecord.shift]
  · simp [dispatches_recurrent_blur, DispatchRecord.shift]

/-- C7: `upsample` records one dispatch, and among the sets bound at it exactly
one is a denoised input: the recurrent-blur read set when the recurrent-blur
flag is set, the read set of Gaussian image 1 when it is clear.  It never binds
both, never binds the read set of Gaussian image 0, and no set it binds refers
to Gaussian image 0.  In an enabled, denoising frame this is the frame's only
Upsample dispatch. -/
theorem C7_upsample_binds_one_denoised_input (self : State) :
    ∃ d, dispatches (upsample self) = [d] ∧
      d.pipeline = some .upsample ∧
      d.sets.filter DescriptorSet.is_denoised_input =
        [if self.m_use_recurrent_blur then .recurrent_blur_read_ds
          else .gaussian_blur_read_ds 1] ∧
      ¬ (DescriptorSet.recurrent_blur_read_ds ∈ d.sets ∧
          DescriptorSet.gaussian_blur_read_ds 1 ∈ d.sets) ∧
      DescriptorSet.gaussian_blur_read_ds 0 ∉ d.sets ∧
      (∀ ds ∈ d.sets, Image.gaussian_blur_image 0 ∉ referenced_images ds) ∧
      (self.m_enabled = true → self.m_denoise = true →
        (dispatches_of .upsample (render self)).map (fun u => u.sets) = [d.sets]) := by
  refine ⟨_, dispatches_upsample self, rfl, ?_, ?_, ?_, ?_, ?_⟩
  · dsimp only
    cases self.m_use_recurrent_blur <;> decide
  · dsimp only
    cases self.m_use_recurrent_blur <;> decide
  · dsimp only
    cases self.m_use_recurrent_blur <;> decide
  · dsimp only
    cases self.m_use_recurrent_blur <;> decide
  · intro he hd
    rw [dispatches_of_upsample_render self he hd, dispatches_upsample]
    rfl

/-- C8: in an enabled, denoising frame, for either value of the recurrent-blur
flag, the denoised input bound by the Upsample dispatch samples one image
subresource, and an earlier dispatch of the same frame, a blur dispatch, has
that subresource as a storage (write) target. -/
theorem C8_upsample_input_written_same_frame (self : State)
    (he : self.m_enabled = true) (hd : self.m_denoise = true) :
    ∃ (j k : Nat) (b u : DispatchRecord), j < k ∧
      (dispatches (render self))[j]? = some b ∧
      (dispatches (render self))[k]? = some u ∧
      u.pipeline = some .upsample ∧
      (b.pipeline = some .gaussian_blur ∨ b.pipeline = some .recurrent_blur) ∧
      ∃ img, (u.sets.filter DescriptorSet.is_denoised_input).flatMap sampled_images =
          [(img, 0)] ∧
        (img, 0) ∈ b.writes := by
  rw [dispatches_render self he hd, dispatches_ray_trace,
    dispatches_temporal_reprojection, dispatches_downsample, dispatches_upsample]
  cases self.m_use_recurrent_blur
  · simp only [Bool.false_eq_true, if_false, dispatches_gaussian_blur, List.map_cons,
      List.map_nil, List.cons_append, List.nil_append, DispatchRecord.shift]
    refine ⟨4, 5, _, _, by decide, rfl, rfl, rfl, Or.inl rfl, .gaussian_blur_image 1, ?_, ?_⟩
    · simp only [List.getElem_cons_succ, List.getElem_cons_zero, DispatchRecord.writes]
      cases self.m_common_resources.ping_pong <;> decide
    · simp only [List.getElem_cons_succ, List.getElem_cons_zero, DispatchRecord.writes]
      cases self.m_common_resources.ping_pong <;> decide
  · simp only [if_true, dispatches_recurrent_blur, List.map_cons,
      List.map_nil, List.cons_append, List.nil_append, DispatchRecord.shift]
    refine ⟨3, 4, _, _, by decide, rfl, rfl, rfl, Or.inr rfl, .recurrent_blur_image, ?_, ?_⟩
    · simp only [List.getElem_cons_succ, List.getElem_cons_zero, DispatchRecord.writes]
      cases self.m_common_resources.ping_pong <;> decide
    · simp only [List.getElem_cons_succ, List.getElem_cons_zero, DispatchRecord.writes]
      cases self.m_common_resources.ping_pong <;> decide

/-- C8 at a frame that selects the Gaussian strategy. -/
theorem C8_upsample_input_written_same_frame_witness :
    first_frame_gaussian_state.m_enabled = true ∧
      first_frame_gaussian_state.m_denoise = true ∧
      ∃ (j k : Nat) (b u : DispatchRecord), j < k ∧
        (dispatches (render first_frame_gaussian_state))[j]? = some b ∧
        (dispatches (render first_frame_gaussian_state))[k]? = some u ∧
        u.pipeline = some .upsample ∧
        (b.pipeline = some .gaussian_blur ∨ b.pipeline = some .recurrent_blur) ∧
        ∃ img, (u.sets.filter DescriptorSet.is_denoised_input).flatMap sampled_images =
            [(img, 0)] ∧
          (img, 0) ∈ b.writes :=
  ⟨rfl, rfl, C8_upsample_input_written_same_frame first_frame_gaussian_state rfl rfl⟩

/-- Every descriptor set bound in a frame, in recording order. -/
theorem bound_sets_render (self : State) :
    bound_sets (render self) =
      if self.m_enabled then
        [.scene_ds, .ray_trace_write_ds, .per_frame_ds, .g_buffer_output_ds, .blue_noise_ds] ++
        (if self.m_denoise then
          [ .temporal_reprojection_write_ds self.m_common_resources.ping_pong.toNat,
            .g_buffer_output_ds,
            .g_buffer_history_ds,
            .ray_trace_read_ds,
            if self.m_use_recurrent_blur && self.m_recurrent_blur.feedback then
              .recurrent_blur_read_ds
            else
              .temporal_reprojection_output_read_ds (!self.m_common_resources.ping_pong).toNat,
            .temporal_reprojection_read_ds (!self.m_common_resources.ping_pong).toNat ] ++
          [ .downsample_write_ds self.m_common_resources.ping_pong.toNat,
            .temporal_reprojection_output_bilinear_read_ds
              self.m_common_resources.ping_pong.toNat ] ++
          (if self.m_use_recurrent_blur then
            [ .recurrent_blur_write_ds,
              .temporal_reprojection_output_read_ds self.m_common_resources.ping_pong.toNat,
              .temporal_reprojection_read_ds self.m_common_resources.ping_pong.toNat,
              .g_buffer_output_ds ]
          else
            [ .gaussian_blur_write_ds 0,
              .temporal_reprojection_output_read_ds self.m_common_resources.ping_pong.toNat,
              .temporal_reprojection_read_ds self.m_common_resources.ping_pong.toNat,
              .g_buffer_output_ds,
              .gaussian_blur_write_ds 1,
              .gaussian_blur_read_ds 0,
              .temporal_reprojection_read_ds self.m_common_resources.ping_pong.toNat,
              .g_buffer_output_ds ]) ++
          [ .upsample_write_ds,
            if self.m_use_recurrent_blur then .recurrent_blur_read_ds
            else .gaussian_blur_read_ds 1,
            .g_buffer_output_ds ]
        else [])
      else [] := by
  cases he : self.m_enabled <;>
  cases hd : self.m_denoise <;>
  cases hf : self.m_common_resources.first_frame <;>
  cases hr : self.m_use_recurrent_blur <;>
    simp [render, he, hd, hf, hr, denoise, clear_images, ray_trace, temporal_reprojection,
      downsample, gaussian_blur, recurrent_blur, upsample, bound_sets]

/-- C9: no descriptor set bound in a frame refers to an image of the strategy
that is not selected: with the Gaussian strategy selected none refers to the
recurrent-blur image, whatever the feedback flag, and with the recurrent
strategy selected none refers to a Gaussian image. -/
theorem C9_unselected_strategy_never_bound (self : State) (ds : DescriptorSet)
    (hds : ds ∈ bound_sets (render self)) :
    (self.m_use_recurrent_blur = false →
        ∀ img ∈ referenced_images ds, img.is_recurrent_blur = false) ∧
      (self.m_use_recurrent_blur = true →
        ∀ img ∈ referenced_images ds, img.is_gaussian_blur = false) := by
  rw [bound_sets_render] at hds
  revert ds
  cases self.m_enabled <;>
  cases self.m_denoise <;>
  cases self.m_use_recurrent_blur <;>
  cases self.m_recurrent_blur.feedback <;>
  cases self.m_common_resources.ping_pong <;>
    decide

/-- C9 at the set TemporalReprojection binds at index 4 when the Gaussian strategy
is selected and the feedback toggle is still set. -/
theorem C9_unselected_strategy_never_bound_witness :
    DescriptorSet.temporal_reprojection_output_read_ds 0 ∈
        bound_sets (render gaussian_with_feedback_state) ∧
      gaussian_with_feedback_state.m_use_recurrent_blur = false ∧
      gaussian_with_feedback_state.m_recurrent_blur.feedback = true ∧
      ∀ img ∈ referenced_images (.temporal_reprojection_output_read_ds 0),
        img.is_recurrent_blur = false :=
  ⟨by decide, rfl, rfl,
    (C9_unselected_strategy_never_bound gaussian_with_feedback_state
      (.temporal_reprojection_output_read_ds 0) (by decide)).1 rfl⟩

/-- C10 (as stated, refuted): it is not the case that for every state the set
bound at index 4 by `temporal_reprojection` is the recurrent-blur read set
whenever the feedback flag is set and the output read set of slot `!ping_pong`
whenever it is clear.  With the feedback flag set and the Gaussian strategy
selected the set is the output read set of slot `!ping_pong`. -/
theorem C10_feedback_flag_alone_counterexample :
    ¬ ∀ self : State,
      (self.m_recurrent_blur.feedback = true →
        set_at 4 (temporal_reprojection self) = some .recurrent_blur_read_ds) ∧
      (self.m_recurrent_blur.feedback = false →
        set_at 4 (temporal_reprojection self) =
          some (.temporal_reprojection_output_read_ds
            (!self.m_common_resources.ping_pong).toNat)) := by
  intro h
  have h1 := (h gaussian_with_feedback_state).1 rfl
  revert h1
  decide

/-- C10 (amended): the set bound at index 4 by `temporal_reprojection` is the
recurrent-blur read set whenever both the recurrent-blur flag and the feedback
flag are set, and the reprojection output read set of slot `!ping_pong`
whenever the feedback flag is clear or the recurrent-blur flag is clear. -/
theorem C10_previous_output_source (self : State) :
    (self.m_use_recurrent_blur = true ∧ self.m_recurrent_blur.feedback = true →
        set_at 4 (temporal_reprojection self) = some .recurrent_blur_read_ds) ∧
      (self.m_use_recurrent_blur = false ∨ self.m_recurrent_blur.feedback = false →
        set_at 4 (temporal_reprojection self) =
          some (.temporal_reprojection_output_read_ds
            (!self.m_common_resources.ping_pong).toNat)) := by
  simp only [set_at, dispatches_temporal_reprojection]
  cases self.m_use_recurrent_blur <;> cases self.m_recurrent_blur.feedback <;> simp

/-- C10 (amended) at a state with both flags set and at a state with the
feedback flag set under the Gaussian strategy. -/
theorem C10_previous_output_source_witness :
    (first_frame_feedback_state.m_use_recurrent_blur = true ∧
        first_frame_feedback_state.m_recurrent_blur.feedback = true) ∧
      set_at 4 (temporal_reprojection first_frame_feedback_state) =
        some .recurrent_blur_read_ds ∧
      (gaussian_with_feedback_state.m_use_recurrent_blur = false ∨
        gaussian_with_feedback_state.m_recurrent_blur.feedback = false) ∧
      set_at 4 (temporal_reprojection gaussian_with_feedback_state) =
        some (.temporal_reprojection_output_read_ds 0) :=
  ⟨⟨rfl, rfl⟩, (C10_previous_output_source first_frame_feedback_state).1 ⟨rfl, rfl⟩,
    Or.inl rfl, (C10_previous_output_source gaussian_with_feedback_state).2 (Or.inl rfl)⟩

/-- The dispatches of `render` when denoising is off: RayTrace alone. -/
theorem dispatches_render_no_denoise (self : State)
    (he : self.m_enabled = true) (hd : self.m_denoise = false) :
    dispatches (render self) =
      (dispatches (ray_trace self)).map (DispatchRecord.shift (clear_images self)) := by
  have hr : render self = clear_images self ++ ray_trace self := by
    simp [render, he, hd]
  rw [hr]
  conv_lhs => rw [dispatches]
  rw [dispatches_from_append, dispatches_from_clear_images, dispatches_from_ray_trace]
  simp only [List.nil_append]

/-- The pipeline and the descriptor sets of every dispatch of a frame, in
recording order, for every value of the flags. -/
theorem dispatch_sets_render (self : State) :
    (dispatches (render self)).map (fun d => (d.pipeline, d.sets)) =
      if self.m_enabled then
        (some Pipeline.ray_trace,
          [DescriptorSet.scene_ds, .ray_trace_write_ds, .per_frame_ds, .g_buffer_output_ds,
            .blue_noise_ds]) ::
        (if self.m_denoise then
          [ (some Pipeline.temporal_reprojection,
              [ DescriptorSet.temporal_reprojection_write_ds
                  self.m_common_resources.ping_pong.toNat,
                .g_buffer_output_ds,
                .g_buffer_history_ds,
                .ray_trace_read_ds,
                if self.m_use_recurrent_blur && self.m_recurrent_blur.feedback then
                  .recurrent_blur_read_ds
                else
                  .temporal_reprojection_output_read_ds
                    (!self.m_common_resources.ping_pong).toNat,
                .temporal_reprojection_read_ds (!self.m_common_resources.ping_pong).toNat ]),
            (some Pipeline.downsample,
              [ DescriptorSet.downsample_write_ds self.m_common_resources.ping_pong.toNat,
                .temporal_reprojection_output_bilinear_read_ds
                  self.m_common_resources.ping_pong.toNat ]) ] ++
          (if self.m_use_recurrent_blur then
            [ (some Pipeline.recurrent_blur,
                [ DescriptorSet.recurrent_blur_write_ds,
                  .temporal_reprojection_output_read_ds
                    self.m_common_resources.ping_pong.toNat,
                  .temporal_reprojection_read_ds self.m_common_resources.ping_pong.toNat,
                  .g_buffer_output_ds ]) ]
          else
            [ (some Pipeline.gaussian_blur,
                [ DescriptorSet.gaussian_blur_write_ds 0,
                  .temporal_reprojection_output_read_ds
                    self.m_common_resources.ping_pong.toNat,
                  .temporal_reprojection_read_ds self.m_common_resources.ping_pong.toNat,
                  .g_buffer_output_ds ]),
              (some Pipeline.gaussian_blur,
                [ DescriptorSet.gaussian_blur_write_ds 1,
                  .gaussian_blur_read_ds 0,
                  .temporal_reprojection_read_ds self.m_common_resources.ping_pong.toNat,
                  .g_buffer_output_ds ]) ]) ++
          [ (some Pipeline.upsample,
              [ DescriptorSet.upsample_write_ds,
                if self.m_use_recurrent_blur then .recurrent_blur_read_ds
                else .gaussian_blur_read_ds 1,
                .g_buffer_output_ds ]) ]
        else [])
      else [] := by
  cases he : self.m_enabled
  · simp [render, he, dispatches, dispatches_from]
  · cases hd : self.m_denoise
    · rw [dispatches_render_no_denoise self he hd, dispatches_ray_trace]
      simp [DispatchRecord.shift]
    · rw [dispatches_render self he hd, dispatches_ray_trace, dispatches_temporal_reprojection,
        dispatches_downsample, dispatches_upsample]
      cases self.m_use_recurrent_blur
      · simp [dispatches_gaussian_blur, DispatchRecord.shift]
      · simp [dispatches_recurrent_blur, DispatchRecord.shift]

/-- C11 (as stated, refuted): in the run `strategy_switch_run`, whose first frame
selects the Gaussian strategy and whose second frame selects the recurrent
strategy with feedback, TemporalReprojection samples the recurrent-blur image
in the second frame although no RecurrentBlur dispatch was recorded in the
first. -/
theorem C11_strategy_switch_counterexample :
    ¬ ∀ frames : Nat → State,
      (∀ n, (frames n).m_enabled = true ∧ (frames n).m_denoise = true) →
      ∀ n, ∀ d ∈ dispatches_of .temporal_reprojection (render (frames (n + 1))),
        (Image.recurrent_blur_image, 0) ∈ d.reads →
        ∃ b ∈ dispatches (render (frames n)),
          b.pipeline = some .recurrent_blur ∧ (Image.recurrent_blur_image, 0) ∈ b.writes := by
  intro h
  have hread : ∃ d ∈ dispatches_of .temporal_reprojection (render (strategy_switch_run (0 + 1))),
      (Image.recurrent_blur_image, 0) ∈ d.reads := by decide
  obtain ⟨d, hd, hr⟩ := hread
  obtain ⟨b, hb, hp, _⟩ := h strategy_switch_run (fun _ => ⟨rfl, rfl⟩) 0 d hd hr
  have hnone : ∀ b ∈ dispatches (render (strategy_switch_run 0)),
      b.pipeline ≠ some .recurrent_blur := by decide
  exact hnone b hb hp

/-- C11 (amended): over any run with AO and denoising enabled, in a frame after
the first (its first-frame flag is false) whose immediately preceding frame
selected the recurrent strategy, if TemporalReprojection samples the
recurrent-blur image then that image was written in the preceding frame by a
RecurrentBlur dispatch, which is the only dispatch of that frame writing it, and
in the current frame no command ahead of the TemporalReprojection dispatch
touches the image and no earlier dispatch writes it. -/
theorem C11_feedback_reads_previous_recurrent_output (frames : Nat → State)
    (hrun : ∀ n, (frames n).m_enabled = true ∧ (frames n).m_denoise = true)
    (n : Nat)
    (hprev : (frames n).m_use_recurrent_blur = true)
    (hnf : (frames (n + 1)).m_common_resources.first_frame = false) :
    ∃ d, dispatches_of .temporal_reprojection (render (frames (n + 1))) = [d] ∧
      ((Image.recurrent_blur_image, 0) ∈ d.reads →
        (∃ b ∈ dispatches (render (frames n)),
          b.pipeline = some .recurrent_blur ∧ (Image.recurrent_blur_image, 0) ∈ b.writes) ∧
        (∀ e ∈ dispatches (render (frames n)),
          (Image.recurrent_blur_image, 0) ∈ e.writes → e.pipeline = some .recurrent_blur) ∧
        (∀ c ∈ d.before, c.touches .recurrent_blur_image = false) ∧
        (∀ e ∈ dispatches d.before, (Image.recurrent_blur_image, 0) ∉ e.writes)) := by
  refine ⟨_, dispatches_of_temporal_reprojection_render (frames (n + 1))
    (hrun (n + 1)).1 (hrun (n + 1)).2, ?_⟩
  intro _
  have hsets := dispatch_sets_render (frames n)
  rw [(hrun n).1, (hrun n).2, hprev] at hsets
  refine ⟨?_, ?_, ?_, ?_⟩
  · have hex : ∃ x ∈ (dispatches (render (frames n))).map (fun d => (d.pipeline, d.sets)),
        x.1 = some Pipeline.recurrent_blur ∧
          (Image.recurrent_blur_image, 0) ∈ x.2.flatMap storage_images := by
      rw [hsets]
      cases (frames n).m_common_resources.ping_pong <;>
      cases (frames n).m_recurrent_blur.feedback <;>
        decide
    obtain ⟨x, hx, h1, h2⟩ := hex
    obtain ⟨b, hb, rfl⟩ := List.mem_map.1 hx
    exact ⟨b, hb, h1, h2⟩
  · have hall : ∀ x ∈ (dispatches (render (frames n))).map (fun d => (d.pipeline, d.sets)),
        (Image.recurrent_blur_image, 0) ∈ x.2.flatMap storage_images →
          x.1 = some Pipeline.recurrent_blur := by
      rw [hsets]
      cases (frames n).m_common_resources.ping_pong <;>
      cases (frames n).m_recurrent_blur.feedback <;>
        decide
    exact fun e he => hall _ (List.mem_map_of_mem _ he)
  · intro c hc
    simp only [clear_images, hnf, ray_trace, temporal_reprojection, List.take, List.nil_append,
      List.cons_append, List.mem_cons, List.mem_singleton, List.not_mem_nil, or_false,
      Bool.false_eq_true, if_false] at hc
    rcases hc with h | h | h | h | h | h | h | h | h | h <;> subst h <;>
      simp [Cmd.touches]
  · simp [clear_images, hnf, ray_trace, temporal_reprojection, dispatches, dispatches_from,
      Bound.step, DispatchRecord.writes]
    decide

/-- C11 (amended) on the run `recurrent_run`, between its frames 0 and 1, where
TemporalReprojection does sample the recurrent-blur image. -/
theorem C11_feedback_reads_previous_recurrent_output_witness :
    (∀ n, (recurrent_run n).m_enabled = true ∧ (recurrent_run n).m_denoise = true) ∧
    (recurrent_run 0).m_use_recurrent_blur = true ∧
    (recurrent_run (0 + 1)).m_common_resources.first_frame = false ∧
    (∃ d ∈ dispatches_of .temporal_reprojection (render (recurrent_run (0 + 1))),
      (Image.recurrent_blur_image, 0) ∈ d.reads) ∧
    ∃ d, dispatches_of .temporal_reprojection (render (recurrent_run (0 + 1))) = [d] ∧
      ((Image.recurrent_blur_image, 0) ∈ d.reads →
        (∃ b ∈ dispatches (render (recurrent_run 0)),
          b.pipeline = some .recurrent_blur ∧ (Image.recurrent_blur_image, 0) ∈ b.writes) ∧
        (∀ e ∈ dispatches (render (recurrent_run 0)),
          (Image.recurrent_blur_image, 0) ∈ e.writes → e.pipeline = some .recurrent_blur) ∧
        (∀ c ∈ d.before, c.touches .recurrent_blur_image = false) ∧
        (∀ e ∈ dispatches d.before, (Image.recurrent_blur_image, 0) ∉ e.writes)) :=
  ⟨fun _ => ⟨rfl, rfl⟩, rfl, rfl, by decide,
    C11_feedback_reads_previous_recurrent_output recurrent_run (fun _ => ⟨rfl, rfl⟩) 0 rfl rfl⟩

/-- C12: for every swap-chain extent (a `uint32_t` in each dimension), the
Upsample target image is `2 * m_width` by `2 * m_height`, and every
half-resolution working image is `m_width` by `m_height`. -/
theorem C12_upsample_target_twice_working_size (W H : Nat) (init : State)
    (hW : W < 2 ^ 32) (hH : H < 2 ^ 32) :
    (create_images (State.construct W H init) .upsample_image).width =
        2 * (State.construct W H init).m_width ∧
      (create_images (State.construct W H init) .upsample_image).height =
        2 * (State.construct W H init).m_height ∧
      ∀ img ∈ working_images,
        (create_images (State.construct W H init) img).width =
            (State.construct W H init).m_width ∧
          (create_images (State.construct W H init) img).height =
            (State.construct W H init).m_height := by
  refine ⟨?_, ?_, ?_⟩
  · simp only [create_images, State.construct, State.half_extent]
    rw [Nat.mod_eq_of_lt (by omega)]
    omega
  · simp only [create_images, State.construct, State.half_extent]
    rw [Nat.mod_eq_of_lt (by omega)]
    omega
  · intro img himg
    simp only [working_images, List.mem_cons, List.mem_singleton, List.not_mem_nil,
      or_false] at himg
    rcases himg with h | h | h | h | h | h | h | h <;> subst h <;> exact ⟨rfl, rfl⟩

/-- C12 at a 1920 by 1080 swap chain. -/
theorem C12_upsample_target_twice_working_size_witness :
    (1920 : Nat) < 2 ^ 32 ∧ (1080 : Nat) < 2 ^ 32 ∧
      (create_images (State.construct 1920 1080 first_frame_gaussian_state)
        .upsample_image).width =
        2 * (State.construct 1920 1080 first_frame_gaussian_state).m_width :=
  ⟨by decide, by decide,
    (C12_upsample_target_twice_working_size 1920 1080 first_frame_gaussian_state
      (by decide) (by decide)).1⟩

/-- C13 (as stated, refuted): for the swap-chain extent 1921 by 1081 the Upsample
image is 1920 wide, not 1921. -/
theorem C13_odd_extent_counterexample :
    ¬ ∀ (W H : Nat) (init : State), W < 2 ^ 32 → H < 2 ^ 32 →
      (create_images (State.construct W H init) .upsample_image).width = W ∧
      (create_images (State.construct W H init) .upsample_image).height = H := by
  intro h
  have h1 := (h 1921 1081 first_frame_gaussian_state (by decide) (by decide)).1
  revert h1
  decide

/-- C13 (amended): for every swap-chain extent `W` by `H` the Upsample output
image is `2 * (W / 2)` by `2 * (H / 2)`; its width is `W` exactly when `W` is
even and its height is `H` exactly when `H` is even. -/
theorem C13_upsample_output_extent (W H : Nat) (init : State)
    (hW : W < 2 ^ 32) (hH : H < 2 ^ 32) :
    (create_images (State.construct W H init) .upsample_image).width = 2 * (W / 2) ∧
      (create_images (State.construct W H init) .upsample_image).height = 2 * (H / 2) ∧
      ((create_images (State.construct W H init) .upsample_image).width = W ↔ W % 2 = 0) ∧
      ((create_images (State.construct W H init) .upsample_image).height = H ↔
        H % 2 = 0) := by
  have hw : (create_images (State.construct W H init) .upsample_image).width = 2 * (W / 2) := by
    simp only [create_images, State.construct, State.half_extent]
    rw [Nat.mod_eq_of_lt (by omega)]
    omega
  have hh : (create_images (State.construct W H init) .upsample_image).height =
      2 * (H / 2) := by
    simp only [create_images, State.construct, State.half_extent]
    rw [Nat.mod_eq_of_lt (by omega)]
    omega
  refine ⟨hw, hh, ?_, ?_⟩
  · rw [hw]; omega
  · rw [hh]; omega

/-- C13 (amended) at a 1921 by 1080 swap chain. -/
theorem C13_upsample_output_extent_witness :
    (1921 : Nat) < 2 ^ 32 ∧ (1080 : Nat) < 2 ^ 32 ∧
      (create_images (State.construct 1921 1080 first_frame_gaussian_state)
        .upsample_image).width = 2 * (1921 / 2) ∧
      (create_images (State.construct 1921 1080 first_frame_gaussian_state)
        .upsample_image).height = 2 * (1080 / 2) :=
  ⟨by decide, by decide,
    (C13_upsample_output_extent 1921 1080 first_frame_gaussian_state
      (by decide) (by decide)).1,
    (C13_upsample_output_extent 1921 1080 first_frame_gaussian_state
      (by decide) (by decide)).2.1⟩

/-- C14 (as stated, refuted): in a frame with denoising on, the Downsample
dispatch has mip level 1 of `color_image[ping_pong]` among its storage
targets. -/
theorem C14_downsample_writes_slot_counterexample :
    ¬ ∀ self : State, ∀ d ∈ dispatches (render self),
      d.pipeline ≠ some .temporal_reprojection →
      ∀ x ∈ d.writes, x.1.reprojection_slot = none := by
  intro h
  have hex : ∃ d ∈ dispatches (render first_frame_gaussian_state),
      d.pipeline = some .downsample ∧ (Image.color_image 0, 1) ∈ d.writes := by decide
  obtain ⟨d, hd, hp, hw⟩ := hex
  have := h first_frame_gaussian_state d hd (by rw [hp]; decide) _ hw
  revert this
  decide

/-- C14 (amended): TemporalReprojection writes mip level 0 of
`color_image[ping_pong]` and `history_length_image[ping_pong]`; Downsample writes
mip levels 1 to 4 of `color_image[ping_pong]`; and in every frame any other
dispatch than TemporalReprojection that has a ping-pong image subresource as a
storage target is the Downsample dispatch, the subresource being one of mip
levels 1 to 4 of `color_image[ping_pong]`. -/
theorem C14_ping_pong_writers (self : State) :
    (∃ t, dispatches (temporal_reprojection self) = [t] ∧
      t.writes =
        [ (.color_image self.m_common_resources.ping_pong.toNat, 0),
          (.history_length_image self.m_common_resources.ping_pong.toNat, 0) ]) ∧
    (∃ d, dispatches (downsample self) = [d] ∧
      d.writes =
        [ (.color_image self.m_common_resources.ping_pong.toNat, 1),
          (.color_image self.m_common_resources.ping_pong.toNat, 2),
          (.color_image self.m_common_resources.ping_pong.toNat, 3),
          (.color_image self.m_common_resources.ping_pong.toNat, 4) ]) ∧
    (∀ d ∈ dispatches (render self),
      d.pipeline ≠ some .temporal_reprojection →
      ∀ x ∈ d.writes, x.1.reprojection_slot ≠ none →
        d.pipeline = some .downsample ∧
        x.1 = .color_image self.m_common_resources.ping_pong.toNat ∧
        1 ≤ x.2 ∧ x.2 ≤ 4) := by
  refine ⟨⟨_, dispatches_temporal_reprojection self, ?_⟩,
    ⟨_, dispatches_downsample self, ?_⟩, ?_⟩
  · simp only [DispatchRecord.writes]
    cases self.m_use_recurrent_blur <;>
    cases self.m_recurrent_blur.feedback <;>
    cases self.m_common_resources.ping_pong <;>
      decide
  · simp only [DispatchRecord.writes]
    cases self.m_common_resources.ping_pong <;> decide
  · have hall : ∀ p ∈ (dispatches (render self)).map (fun d => (d.pipeline, d.sets)),
        p.1 ≠ some Pipeline.temporal_reprojection →
        ∀ x ∈ p.2.flatMap storage_images, x.1.reprojection_slot ≠ none →
          p.1 = some Pipeline.downsample ∧
          x.1 = .color_image self.m_common_resources.ping_pong.toNat ∧
          1 ≤ x.2 ∧ x.2 ≤ 4 := by
      rw [dispatch_sets_render]
      cases self.m_enabled <;>
      cases self.m_denoise <;>
      cases self.m_use_recurrent_blur <;>
      cases self.m_recurrent_blur.feedback <;>
      cases self.m_common_resources.ping_pong <;>
        decide
    exact fun d hd => hall _ (List.mem_map_of_mem _ hd)

/-- C14 (amended) at the Downsample dispatch of a concrete frame. -/
theorem C14_ping_pong_writers_witness :
    ∃ d ∈ dispatches (render first_frame_gaussian_state),
      d.pipeline ≠ some .temporal_reprojection ∧
      ∃ x ∈ d.writes, x.1.reprojection_slot ≠ none ∧
        d.pipeline = some .downsample ∧
        x.1 = .color_image first_frame_gaussian_state.m_common_resources.ping_pong.toNat ∧
        1 ≤ x.2 ∧ x.2 ≤ 4 := by
  have hex : ∃ d ∈ dispatches (render first_frame_gaussian_state),
      d.pipeline ≠ some .temporal_reprojection ∧
      ∃ x ∈ d.writes, x.1.reprojection_slot ≠ none := by decide
  obtain ⟨d, hd, hp, x, hx, hs⟩ := hex
  exact ⟨d, hd, hp, x, hx, hs,
    (C14_ping_pong_writers first_frame_gaussian_state).2.2 d hd hp x hx hs⟩

/-- C15: TemporalReprojection writes slot `ping_pong`; the dispatch of Downsample,
both dispatches of GaussianBlur and the dispatch of RecurrentBlur sample
reprojection images of slot `ping_pong` and of no other slot; Upsample samples
no reprojection image; and in every frame every reprojection image sampled
through a set bound by a Downsample, GaussianBlur or RecurrentBlur dispatch is
of slot `ping_pong`, while no set bound by the Upsample dispatch refers to a
reprojection image. -/
theorem C15_readers_use_current_slot (self : State) :
    (∃ t, dispatches (temporal_reprojection self) = [t] ∧
      t.write_slots = [self.m_common_resources.ping_pong.toNat]) ∧
    (dispatches (downsample self)).map DispatchRecord.read_slots =
      [[self.m_common_resources.ping_pong.toNat]] ∧
    (dispatches (gaussian_blur self)).map DispatchRecord.read_slots =
      [[self.m_common_resources.ping_pong.toNat], [self.m_common_resources.ping_pong.toNat]] ∧
    (dispatches (recurrent_blur self)).map DispatchRecord.read_slots =
      [[self.m_common_resources.ping_pong.toNat]] ∧
    (dispatches (upsample self)).map DispatchRecord.read_slots = [[]] ∧
    (∀ d ∈ dispatches (render self),
      (d.pipeline = some .downsample ∨ d.pipeline = some .gaussian_blur ∨
          d.pipeline = some .recurrent_blur →
        ∀ ds ∈ d.sets, ∀ x ∈ sampled_images ds, ∀ i, x.1.reprojection_slot = some i →
          i = self.m_common_resources.ping_pong.toNat) ∧
      (d.pipeline = some .upsample →
        ∀ ds ∈ d.sets, ∀ img ∈ referenced_images ds, img.reprojection_slot = none)) := by
  refine ⟨⟨_, dispatches_temporal_reprojection self, ?_⟩, ?_, ?_, ?_, ?_, ?_⟩
  · simp only [DispatchRecord.write_slots, DispatchRecord.writes]
    cases self.m_use_recurrent_blur <;>
    cases self.m_recurrent_blur.feedback <;>
    cases self.m_common_resources.ping_pong <;>
      decide
  · rw [dispatches_downsample]
    simp only [List.map, DispatchRecord.read_slots, DispatchRecord.reads]
    cases self.m_common_resources.ping_pong <;> decide
  · rw [dispatches_gaussian_blur]
    simp only [List.map, DispatchRecord.read_slots, DispatchRecord.reads]
    cases self.m_common_resources.ping_pong <;> decide
  · rw [dispatches_recurrent_blur]
    simp only [List.map, DispatchRecord.read_slots, DispatchRecord.reads]
    cases self.m_common_resources.ping_pong <;> decide
  · rw [dispatches_upsample]
    simp only [List.map, DispatchRecord.read_slots, DispatchRecord.reads]
    cases self.m_use_recurrent_blur <;> decide
  · have hall : ∀ p ∈ (dispatches (render self)).map (fun d => (d.pipeline, d.sets)),
        (p.1 = some Pipeline.downsample ∨ p.1 = some Pipeline.gaussian_blur ∨
            p.1 = some Pipeline.recurrent_blur →
          ∀ ds ∈ p.2, ∀ x ∈ sampled_images ds,
            x.1.reprojection_slot = none ∨
              x.1.reprojection_slot = some self.m_common_resources.ping_pong.toNat) ∧
        (p.1 = some Pipeline.upsample →
          ∀ ds ∈ p.2, ∀ img ∈ referenced_images ds, img.reprojection_slot = none) := by
      rw [dispatch_sets_render]
      cases self.m_enabled <;>
      cases self.m_denoise <;>
      cases self.m_use_recurrent_blur <;>
      cases self.m_recurrent_blur.feedback <;>
      cases self.m_common_resources.ping_pong <;>
        decide
    intro d hd
    have h := hall _ (List.mem_map_of_mem _ hd)
    refine ⟨fun hp ds hds x hx i hi => ?_, h.2⟩
    rcases h.1 hp ds hds x hx with h0 | h0
    · rw [h0] at hi; cases hi
    · rw [h0] at hi; exact (Option.some.inj hi).symm

/-- Below `2^24` the conversion to `float` is exact. -/
theorem float_of_nat_eq (n : Nat) (h : n < 2 ^ 24) : float_of_nat n = n := by
  unfold float_of_nat
  rw [if_pos h]

/-- For extents and group sizes below `2^24` the group count is the rounded-up
quotient. -/
theorem group_count_eq (e n : Nat) (he : e < 2 ^ 24) (hn : 0 < n) (hn2 : n < 2 ^ 24) :
    group_count e n = (e + n - 1) / n := by
  unfold group_count
  rw [float_of_nat_eq e he, float_of_nat_eq n hn2]
  obtain ⟨k, hk⟩ : ∃ k, k = (e + n - 1) / n := ⟨_, rfl⟩
  have hk1 : k * n ≤ e + n - 1 := by rw [hk]; exact Nat.div_mul_le_self _ _
  have hk2 : e + n - 1 < k * n + n := by
    rw [hk]
    have := Nat.lt_div_mul_add (a := e + n - 1) hn
    omega
  have hnq : (0 : ℚ) < (n : ℚ) := by exact_mod_cast hn
  have h1q : (k : ℚ) * n < (e : ℚ) + n := by
    have h3 : k * n < e + n := by omega
    exact_mod_cast h3
  have h2q : (e : ℚ) ≤ (k : ℚ) * n := by
    have h3 : e ≤ k * n := by omega
    exact_mod_cast h3
  have hceil : Int.ceil ((e : ℚ) / (n : ℚ)) = ((k : Nat) : Int) := by
    rw [Int.ceil_eq_iff]
    constructor
    · rw [lt_div_iff₀ hnq]
      push_cast
      linarith
    · rw [div_le_iff₀ hnq]
      push_cast
      exact h2q
  rw [← hk, hceil, Int.toNat_ofNat]
  apply Nat.mod_eq_of_lt
  have hle : k ≤ e := by
    by_contra hc
    have h4 : e + 1 ≤ k := by omega
    have h5 : (e + 1) * n ≤ k * n := Nat.mul_le_mul_right n h4
    have h6 : e ≤ e * n := Nat.le_mul_of_pos_right e hn
    have h7 : (e + 1) * n = e * n + n := by ring
    omega
  have : (2 : Nat) ^ 24 < 2 ^ 32 := by norm_num
  omega

/-- C16: `downsample` records two image barriers, both on
`color_image[ping_pong]` with base mip level 1 and level count 4; such a range
covers exactly mip levels 1 to 4 of the 5-level image; the commands of
`downsample` leave the layout of mip level 0 and of every other image as it
was, and leave levels 1 to 4 in the shader-read-only layout. -/
theorem C16_downsample_barriers (self : State) :
    image_barriers_of (downsample self) =
        [ { image := .color_image self.m_common_resources.ping_pong.toNat,
            oldLayout := .UNDEFINED, newLayout := .GENERAL,
            subresourceRange :=
              { baseMipLevel := 1, levelCount := 4, baseArrayLayer := 0, layerCount := 1 },
            srcAccessMask := .SHADER_READ, dstAccessMask := .SHADER_WRITE },
          { image := .color_image self.m_common_resources.ping_pong.toNat,
            oldLayout := .GENERAL, newLayout := .SHADER_READ_ONLY_OPTIMAL,
            subresourceRange :=
              { baseMipLevel := 1, levelCount := 4, baseArrayLayer := 0, layerCount := 1 },
            srcAccessMask := .SHADER_WRITE, dstAccessMask := .SHADER_READ } ] ∧
      (∀ b ∈ image_barriers_of (downsample self), ∀ m,
        b.subresourceRange.covers m = true ↔ 1 ≤ m ∧ m ≤ 4) ∧
      (create_images self
        (.color_image self.m_common_resources.ping_pong.toNat)).mip_levels = 5 ∧
      (∀ (L : Layouts) (img : Image) (m : Nat),
        ¬ (img = .color_image self.m_common_resources.ping_pong.toNat ∧ 1 ≤ m ∧ m ≤ 4) →
          L.after (downsample self) img m = L img m) ∧
      (∀ (L : Layouts) (m : Nat), 1 ≤ m → m ≤ 4 →
        L.after (downsample self)
          (.color_image self.m_common_resources.ping_pong.toNat) m =
          .SHADER_READ_ONLY_OPTIMAL) := by
  refine ⟨rfl, ?_, rfl, ?_, ?_⟩
  · intro b hb m
    simp only [image_barriers_of, downsample, List.flatMap_cons, List.flatMap_nil,
      List.append_nil, List.nil_append, List.cons_append, List.mem_cons, List.mem_singleton,
      List.not_mem_nil, or_false] at hb
    rcases hb with h | h <;> subst h <;>
      simp [SubresourceRange.covers] <;> omega
  · intro L img m hne
    have h5 : ¬ (img = Image.color_image self.m_common_resources.ping_pong.toNat ∧
        1 ≤ m ∧ m < 5) := by
      intro h
      exact hne ⟨h.1, h.2.1, by omega⟩
    simp [downsample, Layouts.after, Layouts.step, Layouts.transition,
      SubresourceRange.covers, h5]
  · intro L m h1 h4
    have h5 : m < 5 := by omega
    simp [downsample, Layouts.after, Layouts.step, Layouts.transition,
      SubresourceRange.covers, h1, h5]

/-- C17 (as stated, refuted): `downsample` does not record four dispatches. -/
theorem C17_single_dispatch_counterexample :
    ¬ ∀ self : State,
      (dispatch_grids (downsample self)).length = 4 ∧
      (dispatches (downsample self)).length = 4 := by
  intro h
  have h1 := (h first_frame_gaussian_state).1
  revert h1
  decide

/-- C17 (amended): `downsample` records exactly one dispatch; its grid is computed
from half the working extent (the extent of mip level 1) with groups of 8 by
8, which below `2^24` is that extent divided by 8 and rounded up; the dispatch
has mip levels 1, 2, 3 and 4 of `color_image[ping_pong]` as storage targets and
samples mip level 0 of the same image. -/
theorem C17_downsample_single_dispatch (self : State) :
    dispatch_grids (downsample self) =
        [(group_count (self.m_width / 2) 8, group_count (self.m_height / 2) 8, 1)] ∧
      (∃ d, dispatches (downsample self) = [d] ∧
        d.pipeline = some .downsample ∧
        d.writes =
          [ (.color_image self.m_common_resources.ping_pong.toNat, 1),
            (.color_image self.m_common_resources.ping_pong.toNat, 2),
            (.color_image self.m_common_resources.ping_pong.toNat, 3),
            (.color_image self.m_common_resources.ping_pong.toNat, 4) ] ∧
        d.reads = [(.color_image self.m_common_resources.ping_pong.toNat, 0)]) ∧
      (self.m_width < 2 ^ 24 →
        group_count (self.m_width / 2) 8 = (self.m_width / 2 + 7) / 8) ∧
      (self.m_height < 2 ^ 24 →
        group_count (self.m_height / 2) 8 = (self.m_height / 2 + 7) / 8) := by
  refine ⟨rfl, ⟨_, dispatches_downsample self, rfl, ?_, ?_⟩, ?_, ?_⟩
  · simp only [DispatchRecord.writes]
    cases self.m_common_resources.ping_pong <;> decide
  · simp only [DispatchRecord.reads]
    cases self.m_common_resources.ping_pong <;> decide
  · intro h
    exact group_count_eq _ 8 (by omega) (by decide) (by decide)
  · intro h
    exact group_count_eq _ 8 (by omega) (by decide) (by decide)

/-- C17 (amended) at a 960 by 540 working resolution: a grid of 60 by 34. -/
theorem C17_downsample_single_dispatch_witness :
    first_frame_gaussian_state.m_width < 2 ^ 24 ∧
      dispatch_grids (downsample first_frame_gaussian_state) =
        [(group_count (960 / 2) 8, group_count (540 / 2) 8, 1)] ∧
      group_count (960 / 2) 8 = 60 ∧
      group_count (540 / 2) 8 = 34 :=
  ⟨by decide, (C17_downsample_single_dispatch first_frame_gaussian_state).1,
    (C17_downsample_single_dispatch first_frame_gaussian_state).2.2.1 (by decide),
    (C17_downsample_single_dispatch first_frame_gaussian_state).2.2.2 (by decide)⟩

/-- The conversion to `int32_t` is the identity on the range of `int32_t`. -/
theorem int32_of_int_eq (i : Int) (h1 : -2 ^ 31 ≤ i) (h2 : i < 2 ^ 31) :
    int32_of_int i = i := by
  unfold int32_of_int
  omega

/-- The conversion of an integer of magnitude below `2^24` to `float` is exact. -/
theorem float_of_int_eq (i : Int) (h1 : -2 ^ 24 < i) (h2 : i < 2 ^ 24) :
    float_of_int i = (i : ℚ) := by
  unfold float_of_int
  split
  · rename_i hneg
    rw [float_of_nat_eq _ (by omega)]
    have : ((i.natAbs : Nat) : Int) = -i := by omega
    have h3 : ((i.natAbs : Nat) : ℚ) = -(i : ℚ) := by
      have h4 : (((i.natAbs : Nat) : Int) : ℚ) = ((-i : Int) : ℚ) := by rw [this]
      rw [Int.cast_natCast, Int.cast_neg] at h4
      exact h4
    rw [h3]; ring
  · rename_i hpos
    rw [float_of_nat_eq _ (by omega)]
    have : ((i.toNat : Nat) : Int) = i := by omega
    have h4 : (((i.toNat : Nat) : Int) : ℚ) = (i : ℚ) := by rw [this]
    rw [Int.cast_natCast] at h4
    exact h4

/-- C18: `gaussian_blur` records exactly two dispatches; both push the configured
radius; the first samples colour and history length of reprojection slot
`ping_pong` and writes Gaussian image 0; the second samples Gaussian image 0
(and the slot's colour and history length) and writes Gaussian image 1, which
is the image the denoised input of Upsample samples under the Gaussian
strategy. -/
theorem C18_gaussian_two_dispatches (self : State) :
    (∃ d1 d2, dispatches (gaussian_blur self) = [d1, d2] ∧
      d1.pipeline = some .gaussian_blur ∧ d2.pipeline = some .gaussian_blur ∧
      d1.reads =
        [ (.color_image self.m_common_resources.ping_pong.toNat, 0),
          (.color_image self.m_common_resources.ping_pong.toNat, 0),
          (.history_length_image self.m_common_resources.ping_pong.toNat, 0) ] ∧
      d1.writes = [(.gaussian_blur_image 0, 0)] ∧
      d2.reads =
        [ (.gaussian_blur_image 0, 0),
          (.color_image self.m_common_resources.ping_pong.toNat, 0),
          (.history_length_image self.m_common_resources.ping_pong.toNat, 0) ] ∧
      d2.writes = [(.gaussian_blur_image 1, 0)]) ∧
    (dispatch_grids (gaussian_blur self)).length = 2 ∧
    (pushed_constants (gaussian_blur self)).map PushConstants.gaussian_radius =
      [ some (int32_of_int self.m_gaussian_blur.blur_radius),
        some (int32_of_int self.m_gaussian_blur.blur_radius) ] ∧
    (-2 ^ 31 ≤ self.m_gaussian_blur.blur_radius → self.m_gaussian_blur.blur_radius < 2 ^ 31 →
      int32_of_int self.m_gaussian_blur.blur_radius = self.m_gaussian_blur.blur_radius) ∧
    (self.m_use_recurrent_blur = false →
      ∃ u, dispatches (upsample self) = [u] ∧
        (u.sets.filter DescriptorSet.is_denoised_input).flatMap sampled_images =
          [(.gaussian_blur_image 1, 0)]) := by
  refine ⟨⟨_, _, dispatches_gaussian_blur self, rfl, rfl, ?_, ?_, ?_, ?_⟩, rfl, rfl,
    int32_of_int_eq _, ?_⟩
  · simp only [DispatchRecord.reads]
    cases self.m_common_resources.ping_pong <;> decide
  · simp only [DispatchRecord.writes]
    cases self.m_common_resources.ping_pong <;> decide
  · simp only [DispatchRecord.reads]
    cases self.m_common_resources.ping_pong <;> decide
  · simp only [DispatchRecord.writes]
    cases self.m_common_resources.ping_pong <;> decide
  · intro hr
    refine ⟨_, dispatches_upsample self, ?_⟩
    simp only [hr]
    decide

/-- C18 at a frame with the Gaussian strategy and radius 5. -/
theorem C18_gaussian_two_dispatches_witness :
    (-2 ^ 31 ≤ first_frame_gaussian_state.m_gaussian_blur.blur_radius ∧
      first_frame_gaussian_state.m_gaussian_blur.blur_radius < 2 ^ 31) ∧
    first_frame_gaussian_state.m_use_recurrent_blur = false ∧
    (pushed_constants (gaussian_blur first_frame_gaussian_state)).map
        PushConstants.gaussian_radius =
      [ some (int32_of_int first_frame_gaussian_state.m_gaussian_blur.blur_radius),
        some (int32_of_int first_frame_gaussian_state.m_gaussian_blur.blur_radius) ] ∧
    int32_of_int first_frame_gaussian_state.m_gaussian_blur.blur_radius = 5 ∧
    ∃ u, dispatches (upsample first_frame_gaussian_state) = [u] ∧
      (u.sets.filter DescriptorSet.is_denoised_input).flatMap sampled_images =
        [(.gaussian_blur_image 1, 0)] :=
  ⟨⟨by decide, by decide⟩, rfl,
    (C18_gaussian_two_dispatches first_frame_gaussian_state).2.2.1,
    (C18_gaussian_two_dispatches first_frame_gaussian_state).2.2.2.1 (by decide) (by decide),
    (C18_gaussian_two_dispatches first_frame_gaussian_state).2.2.2.2 rfl⟩

/-- C19: `recurrent_blur` records exactly one dispatch, which samples colour and
history length of reprojection slot `ping_pong` and writes the recurrent-blur
image; its push constants carry the configured radius converted to `float`
(exactly, for a magnitude below `2^24`), the frame counter, and
`self_stabilize` as 1 when the toggle is set and 0 when it is clear. -/
theorem C19_recurrent_single_dispatch (self : State) :
    (∃ d, dispatches (recurrent_blur self) = [d] ∧
      d.pipeline = some .recurrent_blur ∧
      d.reads =
        [ (.color_image self.m_common_resources.ping_pong.toNat, 0),
          (.color_image self.m_common_resources.ping_pong.toNat, 0),
          (.history_length_image self.m_common_resources.ping_pong.toNat, 0) ] ∧
      d.writes = [(.recurrent_blur_image, 0)]) ∧
    (dispatch_grids (recurrent_blur self)).length = 1 ∧
    pushed_constants (recurrent_blur self) =
      [ .recurrent_blur self.m_common_resources.z_buffer_params
          (float_of_int self.m_recurrent_blur.blur_radius)
          self.m_common_resources.num_frames
          (if self.m_recurrent_blur.self_stabilize then 1 else 0) ] ∧
    (-2 ^ 24 < self.m_recurrent_blur.blur_radius → self.m_recurrent_blur.blur_radius < 2 ^ 24 →
      float_of_int self.m_recurrent_blur.blur_radius =
        (self.m_recurrent_blur.blur_radius : ℚ)) := by
  refine ⟨⟨_, dispatches_recurrent_blur self, rfl, ?_, ?_⟩, rfl, ?_, float_of_int_eq _⟩
  · simp only [DispatchRecord.reads]
    cases self.m_common_resources.ping_pong <;> decide
  · simp only [DispatchRecord.writes]
    cases self.m_common_resources.ping_pong <;> decide
  · cases h : self.m_recurrent_blur.self_stabilize <;>
      simp [pushed_constants, recurrent_blur, h]

/-- C19 at a frame with the recurrent strategy and radius 5. -/
theorem C19_recurrent_single_dispatch_witness :
    (-2 ^ 24 < first_frame_feedback_state.m_recurrent_blur.blur_radius ∧
      first_frame_feedback_state.m_recurrent_blur.blur_radius < 2 ^ 24) ∧
    pushed_constants (recurrent_blur first_frame_feedback_state) =
      [ .recurrent_blur zero_color
          (float_of_int first_frame_feedback_state.m_recurrent_blur.blur_radius) 0 1 ] ∧
    float_of_int first_frame_feedback_state.m_recurrent_blur.blur_radius = 5 :=
  ⟨⟨by decide, by decide⟩,
    (C19_recurrent_single_dispatch first_frame_feedback_state).2.2.1,
    by
      have h := (C19_recurrent_single_dispatch first_frame_feedback_state).2.2.2
        (by decide) (by decide)
      rw [h]
      norm_num [first_frame_feedback_state]⟩

/-- After a dispatch with no synchronising command since, a stream that passes
the check has a synchronising command ahead of its next dispatch. -/
theorem dispatches_separated_pending (cmds : List Cmd) :
    dispatches_separated_from true cmds = true →
    ∀ (mid : List Cmd) (c2 : Cmd) (b : List Cmd), cmds = mid ++ c2 :: b →
      c2.is_dispatch = true → ∃ s ∈ mid, s.is_sync = true := by
  induction cmds with
  | nil =>
    intro _ mid c2 b h
    cases mid <;> simp at h
  | cons c cs ih =>
    intro hsep mid c2 b h hc2
    cases mid with
    | nil =>
      simp only [List.nil_append, List.cons.injEq] at h
      rw [h.1] at hsep
      simp [dispatches_separated_from, hc2] at hsep
    | cons m mid' =>
      simp only [List.cons_append, List.cons.injEq] at h
      obtain ⟨hm, hcs⟩ := h
      subst hm
      cases hd : c.is_dispatch
      · cases hs : c.is_sync
        · simp only [dispatches_separated_from, hd, hs, Bool.false_eq_true, if_false,
            Bool.not_false, Bool.and_self] at hsep
          obtain ⟨s, hs1, hs2⟩ := ih hsep mid' c2 b hcs hc2
          exact ⟨s, List.mem_cons_of_mem _ hs1, hs2⟩
        · exact ⟨c, List.mem_cons_self _ _, hs⟩
      · simp [dispatches_separated_from, hd] at hsep

/-- A stream that passes the check has a synchronising command between any two
of its dispatches. -/
theorem dispatches_separated_sound (cmds : List Cmd) (pending : Bool) :
    dispatches_separated_from pending cmds = true →
    ∀ (a : List Cmd) (c1 : Cmd) (mid : List Cmd) (c2 : Cmd) (b : List Cmd),
      cmds = a ++ c1 :: (mid ++ c2 :: b) →
      c1.is_dispatch = true → c2.is_dispatch = true → ∃ s ∈ mid, s.is_sync = true := by
  induction cmds generalizing pending with
  | nil =>
    intro _ a c1 mid c2 b h
    cases a <;> simp at h
  | cons c cs ih =>
    intro hsep a c1 mid c2 b h hc1 hc2
    cases a with
    | nil =>
      simp only [List.nil_append, List.cons.injEq] at h
      obtain ⟨hc, hcs⟩ := h
      subst hc
      simp only [dispatches_separated_from, hc1, if_true, Bool.and_eq_true] at hsep
      exact dispatches_separated_pending cs hsep.2 mid c2 b hcs hc2
    | cons x a' =>
      simp only [List.cons_append, List.cons.injEq] at h
      obtain ⟨_, hcs⟩ := h
      cases hd : c.is_dispatch
      · simp only [dispatches_separated_from, hd, Bool.false_eq_true, if_false] at hsep
        exact ih _ hsep a' c1 mid c2 b hcs hc1 hc2
      · simp only [dispatches_separated_from, hd, if_true, Bool.and_eq_true] at hsep
        exact ih _ hsep.2 a' c1 mid c2 b hcs hc1 hc2

/-- C20: in the stream `render` records, for every value of the flags, between
any dispatch and any later dispatch there is a pipeline barrier, an image-layout
transition or a mip generation. -/
theorem C20_no_adjacent_dispatches (self : State) :
    dispatches_separated_from false (render self) = true ∧
      (dispatch_grids (render self)).length =
        (if self.m_enabled then
          (if self.m_denoise then (if self.m_use_recurrent_blur then 5 else 6) else 1)
        else 0) ∧
      ∀ (a : List Cmd) (c1 : Cmd) (mid : List Cmd) (c2 : Cmd) (b : List Cmd),
        render self = a ++ c1 :: (mid ++ c2 :: b) →
        c1.is_dispatch = true → c2.is_dispatch = true → ∃ s ∈ mid, s.is_sync = true := by
  have h : dispatches_separated_from false (render self) = true := by
    cases he : self.m_enabled <;>
    cases hd : self.m_denoise <;>
    cases hf : self.m_common_resources.first_frame <;>
    cases hr : self.m_use_recurrent_blur <;>
      simp [render, he, hd, hf, hr, denoise, clear_images, ray_trace, temporal_reprojection,
        downsample, gaussian_blur, recurrent_blur, upsample, dispatches_separated_from,
        Cmd.is_dispatch, Cmd.is_sync]
  refine ⟨h, ?_, dispatches_separated_sound _ _ h⟩
  cases he : self.m_enabled <;>
  cases hd : self.m_denoise <;>
  cases hf : self.m_common_resources.first_frame <;>
  cases hr : self.m_use_recurrent_blur <;>
    simp [render, he, hd, hf, hr, denoise, clear_images, ray_trace, temporal_reprojection,
      downsample, gaussian_blur, recurrent_blur, upsample, dispatch_grids]

/-- The layouts after a concatenated stream. -/
theorem Layouts.after_append (L : Layouts) (xs ys : List Cmd) :
    L.after (xs ++ ys) = (L.after xs).after ys := by
  simp [Layouts.after, List.foldl_append]

/-- The layout effect of `clear_images` on a first frame. -/
theorem Layouts.after_clear_images_first (L : Layouts) (self : State)
    (hf : self.m_common_resources.first_frame = true) :
    L.after (clear_images self) = fun i m =>
      if (i = .history_length_image (!self.m_common_resources.ping_pong).toNat ∨
          i = .color_image (!self.m_common_resources.ping_pong).toNat ∨
          i = .recurrent_blur_image) ∧ m = 0 then .SHADER_READ_ONLY_OPTIMAL
      else L i m := by
  funext i m
  simp only [clear_images, hf, if_true, Layouts.after, List.foldl, Layouts.step,
    Layouts.transition, mip0_range, SubresourceRange.covers]
  by_cases hm : m = 0 <;> by_cases h1 : i = .recurrent_blur_image <;>
    by_cases h2 : i = .color_image (!self.m_common_resources.ping_pong).toNat <;>
    by_cases h3 : i = .history_length_image (!self.m_common_resources.ping_pong).toNat <;>
    simp [hm, h1, h2, h3]

/-- The layout effect of `clear_images` on a later frame: none. -/
theorem Layouts.after_clear_images_later (L : Layouts) (self : State)
    (hf : self.m_common_resources.first_frame = false) :
    L.after (clear_images self) = L := by
  simp [clear_images, hf, Layouts.after]

/-- The layout effect of the commands of `ray_trace` ahead of its dispatch. -/
theorem Layouts.after_ray_trace_take (L : Layouts) (self : State) :
    L.after ((ray_trace self).take 4) = fun i m =>
      if i = .ray_trace_image ∧ m = 0 then .GENERAL else L i m := by
  funext i m
  simp only [ray_trace, List.take, Layouts.after, List.foldl, Layouts.step,
    Layouts.transition, mip0_range, SubresourceRange.covers]
  by_cases hm : m = 0 <;> by_cases h1 : i = .ray_trace_image <;> simp [hm, h1]

/-- The layout effect of `ray_trace`. -/
theorem Layouts.after_ray_trace (L : Layouts) (self : State) :
    L.after (ray_trace self) = fun i m =>
      if i = .ray_trace_image then .SHADER_READ_ONLY_OPTIMAL else L i m := by
  funext i m
  simp only [ray_trace, Layouts.after, List.foldl, Layouts.step,
    Layouts.transition, mip0_range, SubresourceRange.covers]
  by_cases hm : m = 0 <;> by_cases h1 : i = .ray_trace_image <;> simp [hm, h1]

/-- The layout effect of the commands of `temporal_reprojection` ahead of its
dispatch. -/
theorem Layouts.after_temporal_reprojection_take (L : Layouts) (self : State) :
    L.after ((temporal_reprojection self).take 4) = fun i m =>
      if (i = .color_image self.m_common_resources.ping_pong.toNat ∨
          i = .history_length_image self.m_common_resources.ping_pong.toNat) ∧ m = 0
      then .GENERAL else L i m := by
  funext i m
  simp only [temporal_reprojection, List.take, Layouts.after, List.foldl, Layouts.step,
    Layouts.transition, mip0_range, SubresourceRange.covers]
  by_cases hm : m = 0 <;>
    by_cases h1 : i = .color_image self.m_common_resources.ping_pong.toNat <;>
    by_cases h2 : i = .history_length_image self.m_common_resources.ping_pong.toNat <;>
    simp [hm, h1, h2]

/-- The layout effect of `temporal_reprojection`. -/
theorem Layouts.after_temporal_reprojection (L : Layouts) (self : State) :
    L.after (temporal_reprojection self) = fun i m =>
      if (i = .color_image self.m_common_resources.ping_pong.toNat ∨
          i = .history_length_image self.m_common_resources.ping_pong.toNat) ∧ m = 0
      then .SHADER_READ_ONLY_OPTIMAL else L i m := by
  funext i m
  simp only [temporal_reprojection, Layouts.after, List.foldl, Layouts.step,
    Layouts.transition, mip0_range, SubresourceRange.covers]
  by_cases hm : m = 0 <;>
    by_cases h1 : i = .color_image self.m_common_resources.ping_pong.toNat <;>
    by_cases h2 : i = .history_length_image self.m_common_resources.ping_pong.toNat <;>
    simp [hm, h1, h2]

/-- The layout effect of the commands of `downsample` ahead of its dispatch. -/
theorem Layouts.after_downsample_take (L : Layouts) (self : State) :
    L.after ((downsample self).take 3) = fun i m =>
      if i = .color_image self.m_common_resources.ping_pong.toNat ∧ 1 ≤ m ∧ m < 5
      then .GENERAL else L i m := by
  funext i m
  simp only [downsample, List.take, Layouts.after, List.foldl, Layouts.step,
    Layouts.transition, SubresourceRange.covers]
  by_cases h1 : i = .color_image self.m_common_resources.ping_pong.toNat <;> simp [h1]

/-- The layout effect of `downsample`. -/
theorem Layouts.after_downsample (L : Layouts) (self : State) :
    L.after (downsample self) = fun i m =>
      if i = .color_image self.m_common_resources.ping_pong.toNat ∧ 1 ≤ m ∧ m < 5
      then .SHADER_READ_ONLY_OPTIMAL else L i m := by
  funext i m
  simp only [downsample, Layouts.after, List.foldl, Layouts.step,
    Layouts.transition, SubresourceRange.covers]
  by_cases h1 : i = .color_image self.m_common_resources.ping_pong.toNat <;>
    by_cases h2 : 1 ≤ m <;> by_cases h3 : m < 5 <;> simp [h1, h2, h3]

/-- The layout effect of the commands of `gaussian_blur` ahead of its first
dispatch. -/
theorem Layouts.after_gaussian_blur_take_4 (L : Layouts) (self : State) :
    L.after ((gaussian_blur self).take 4) = fun i m =>
      if i = .gaussian_blur_image 0 ∧ m = 0 then .GENERAL else L i m := by
  funext i m
  simp only [gaussian_blur, List.cons_append, List.nil_append, List.take, Layouts.after,
    List.foldl, Layouts.step, Layouts.transition, mip0_range, SubresourceRange.covers]
  by_cases hm : m = 0 <;> by_cases h1 : i = .gaussian_blur_image 0 <;> simp [hm, h1]

/-- The layout effect of the commands of `gaussian_blur` ahead of its second
dispatch. -/
theorem Layouts.after_gaussian_blur_take_10 (L : Layouts) (self : State) :
    L.after ((gaussian_blur self).take 10) = fun i m =>
      if i = .gaussian_blur_image 1 ∧ m = 0 then .GENERAL
      else if i = .gaussian_blur_image 0 ∧ m = 0 then .SHADER_READ_ONLY_OPTIMAL
      else L i m := by
  funext i m
  simp only [gaussian_blur, List.cons_append, List.nil_append, List.take, Layouts.after,
    List.foldl, Layouts.step, Layouts.transition, mip0_range, SubresourceRange.covers]
  by_cases hm : m = 0 <;> by_cases h1 : i = .gaussian_blur_image 0 <;>
    by_cases h2 : i = .gaussian_blur_image 1 <;> simp [hm, h1, h2]

/-- The layout effect of `gaussian_blur`. -/
theorem Layouts.after_gaussian_blur (L : Layouts) (self : State) :
    L.after (gaussian_blur self) = fun i m =>
      if (i = .gaussian_blur_image 0 ∨ i = .gaussian_blur_image 1) ∧ m = 0
      then .SHADER_READ_ONLY_OPTIMAL else L i m := by
  funext i m
  simp only [gaussian_blur, List.cons_append, List.nil_append, Layouts.after,
    List.foldl, Layouts.step, Layouts.transition, mip0_range, SubresourceRange.covers]
  by_cases hm : m = 0 <;> by_cases h1 : i = .gaussian_blur_image 0 <;>
    by_cases h2 : i = .gaussian_blur_image 1 <;> simp [hm, h1, h2]

/-- The layout effect of the commands of `recurrent_blur` ahead of its dispatch. -/
theorem Layouts.after_recurrent_blur_take (L : Layouts) (self : State) :
    L.after ((recurrent_blur self).take 4) = fun i m =>
      if i = .recurrent_blur_image ∧ m = 0 then .GENERAL else L i m := by
  funext i m
  simp only [recurrent_blur, List.take, Layouts.after, List.foldl, Layouts.step,
    Layouts.transition, mip0_range, SubresourceRange.covers]
  by_cases hm : m = 0 <;> by_cases h1 : i = .recurrent_blur_image <;> simp [hm, h1]

/-- The layout effect of `recurrent_blur`. -/
theorem Layouts.after_recurrent_blur (L : Layouts) (self : State) :
    L.after (recurrent_blur self) = fun i m =>
      if i = .recurrent_blur_image ∧ m = 0 then .SHADER_READ_ONLY_OPTIMAL else L i m := by
  funext i m
  simp only [recurrent_blur, Layouts.after, List.foldl, Layouts.step,
    Layouts.transition, mip0_range, SubresourceRange.covers]
  by_cases hm : m = 0 <;> by_cases h1 : i = .recurrent_blur_image <;> simp [hm, h1]

/-- The layout effect of the commands of `upsample` ahead of its dispatch. -/
theorem Layouts.after_upsample_take (L : Layouts) (self : State) :
    L.after ((upsample self).take 4) = fun i m =>
      if i = .upsample_image ∧ m = 0 then .GENERAL else L i m := by
  funext i m
  simp only [upsample, List.take, Layouts.after, List.foldl, Layouts.step,
    Layouts.transition, mip0_range, SubresourceRange.covers]
  by_cases hm : m = 0 <;> by_cases h1 : i = .upsample_image <;> simp [hm, h1]

/-- The layout effect of `upsample`. -/
theorem Layouts.after_upsample (L : Layouts) (self : State) :
    L.after (upsample self) = fun i m =>
      if i = .upsample_image ∧ m = 0 then .SHADER_READ_ONLY_OPTIMAL else L i m := by
  funext i m
  simp only [upsample, Layouts.after, List.foldl, Layouts.step,
    Layouts.transition, mip0_range, SubresourceRange.covers]
  by_cases hm : m = 0 <;> by_cases h1 : i = .upsample_image <;> simp [hm, h1]


/-- What the RayTrace dispatch writes and samples. -/
theorem ray_trace_sets_images :
    [DescriptorSet.scene_ds, .ray_trace_write_ds, .per_frame_ds, .g_buffer_output_ds,
        .blue_noise_ds].flatMap storage_images = [(.ray_trace_image, 0)] ∧
    [DescriptorSet.scene_ds, .ray_trace_write_ds, .per_frame_ds, .g_buffer_output_ds,
        .blue_noise_ds].flatMap sampled_images = [] := by
  decide

/-- What the TemporalReprojection dispatch writes and samples. -/
theorem temporal_reprojection_sets_images (p b : Bool) :
    [ DescriptorSet.temporal_reprojection_write_ds p.toNat, .g_buffer_output_ds,
      .g_buffer_history_ds, .ray_trace_read_ds,
      if b then .recurrent_blur_read_ds
      else .temporal_reprojection_output_read_ds (!p).toNat,
      .temporal_reprojection_read_ds (!p).toNat ].flatMap storage_images =
      [(.color_image p.toNat, 0), (.history_length_image p.toNat, 0)] ∧
    [ DescriptorSet.temporal_reprojection_write_ds p.toNat, .g_buffer_output_ds,
      .g_buffer_history_ds, .ray_trace_read_ds,
      if b then .recurrent_blur_read_ds
      else .temporal_reprojection_output_read_ds (!p).toNat,
      .temporal_reprojection_read_ds (!p).toNat ].flatMap sampled_images =
      [ (.ray_trace_image, 0),
        if b then (.recurrent_blur_image, 0) else (.color_image (!p).toNat, 0),
        (.color_image (!p).toNat, 0), (.history_length_image (!p).toNat, 0) ] := by
  cases p <;> cases b <;> decide

/-- What the Downsample dispatch writes and samples. -/
theorem downsample_sets_images (p : Bool) :
    [ DescriptorSet.downsample_write_ds p.toNat,
      .temporal_reprojection_output_bilinear_read_ds p.toNat ].flatMap storage_images =
      [ (.color_image p.toNat, 1), (.color_image p.toNat, 2), (.color_image p.toNat, 3),
        (.color_image p.toNat, 4) ] ∧
    [ DescriptorSet.downsample_write_ds p.toNat,
      .temporal_reprojection_output_bilinear_read_ds p.toNat ].flatMap sampled_images =
      [(.color_image p.toNat, 0)] := by
  cases p <;> decide

/-- What the two GaussianBlur dispatches write and sample. -/
theorem gaussian_blur_sets_images (p : Bool) :
    [ DescriptorSet.gaussian_blur_write_ds 0, .temporal_reprojection_output_read_ds p.toNat,
      .temporal_reprojection_read_ds p.toNat, .g_buffer_output_ds ].flatMap storage_images =
      [(.gaussian_blur_image 0, 0)] ∧
    [ DescriptorSet.gaussian_blur_write_ds 0, .temporal_reprojection_output_read_ds p.toNat,
      .temporal_reprojection_read_ds p.toNat, .g_buffer_output_ds ].flatMap sampled_images =
      [ (.color_image p.toNat, 0), (.color_image p.toNat, 0),
        (.history_length_image p.toNat, 0) ] ∧
    [ DescriptorSet.gaussian_blur_write_ds 1, .gaussian_blur_read_ds 0,
      .temporal_reprojection_read_ds p.toNat, .g_buffer_output_ds ].flatMap storage_images =
      [(.gaussian_blur_image 1, 0)] ∧
    [ DescriptorSet.gaussian_blur_write_ds 1, .gaussian_blur_read_ds 0,
      .temporal_reprojection_read_ds p.toNat, .g_buffer_output_ds ].flatMap sampled_images =
      [ (.gaussian_blur_image 0, 0), (.color_image p.toNat, 0),
        (.history_length_image p.toNat, 0) ] := by
  cases p <;> decide

/-- What the RecurrentBlur dispatch writes and samples. -/
theorem recurrent_blur_sets_images (p : Bool) :
    [ DescriptorSet.recurrent_blur_write_ds, .temporal_reprojection_output_read_ds p.toNat,
      .temporal_reprojection_read_ds p.toNat, .g_buffer_output_ds ].flatMap storage_images =
      [(.recurrent_blur_image, 0)] ∧
    [ DescriptorSet.recurrent_blur_write_ds, .temporal_reprojection_output_read_ds p.toNat,
      .temporal_reprojection_read_ds p.toNat, .g_buffer_output_ds ].flatMap sampled_images =
      [ (.color_image p.toNat, 0), (.color_image p.toNat, 0),
        (.history_length_image p.toNat, 0) ] := by
  cases p <;> decide

/-- What the Upsample dispatch writes and samples. -/
theorem upsample_sets_images (r : Bool) :
    [ DescriptorSet.upsample_write_ds,
      if r then .recurrent_blur_read_ds else .gaussian_blur_read_ds 1,
      .g_buffer_output_ds ].flatMap storage_images = [(.upsample_image, 0)] ∧
    [ DescriptorSet.upsample_write_ds,
      if r then .recurrent_blur_read_ds else .gaussian_blur_read_ds 1,
      .g_buffer_output_ds ].flatMap sampled_images =
      [if r then (.recurrent_blur_image, 0) else (.gaussian_blur_image 1, 0)] := by
  cases r <;> decide

set_option maxHeartbeats 1600000 in
/-- The layouts of one enabled, denoising frame.  If the frame is a first frame,
or if at its start mip 0 of the two images of slot `!ping_pong` and of the
recurrent-blur image is shader-read-only, then at every dispatch every storage
target is in the general layout and every sampled subresource is shader-read-only;
what a dispatch wrote is shader-read-only at the next dispatch and at the end of
the frame; and at the end of the frame mip 0 of the two images of slot
`ping_pong` and of the recurrent-blur image is shader-read-only. -/
theorem frame_layouts (self : State) (L : Layouts)
    (he : self.m_enabled = true) (hd : self.m_denoise = true)
    (hinv : self.m_common_resources.first_frame = true ∨
      (L (.color_image (!self.m_common_resources.ping_pong).toNat) 0 =
          .SHADER_READ_ONLY_OPTIMAL ∧
        L (.history_length_image (!self.m_common_resources.ping_pong).toNat) 0 =
          .SHADER_READ_ONLY_OPTIMAL ∧
        L .recurrent_blur_image 0 = .SHADER_READ_ONLY_OPTIMAL)) :
    (∀ d ∈ dispatches (render self), d.layouts_ok L) ∧
    (∀ p ∈ (dispatches (render self)).zip (dispatches (render self)).tail,
      ∀ x ∈ p.1.writes, L.after p.2.before x.1 x.2 = .SHADER_READ_ONLY_OPTIMAL) ∧
    (∀ d ∈ dispatches (render self),
      ∀ x ∈ d.writes, L.after (render self) x.1 x.2 = .SHADER_READ_ONLY_OPTIMAL) ∧
    (L.after (render self) (.color_image self.m_common_resources.ping_pong.toNat) 0 =
        .SHADER_READ_ONLY_OPTIMAL ∧
      L.after (render self) (.history_length_image self.m_common_resources.ping_pong.toNat) 0 =
        .SHADER_READ_ONLY_OPTIMAL ∧
      L.after (render self) .recurrent_blur_image 0 = .SHADER_READ_ONLY_OPTIMAL) := by
  have hc : L.after (clear_images self)
        (.color_image (!self.m_common_resources.ping_pong).toNat) 0 =
          .SHADER_READ_ONLY_OPTIMAL ∧
      L.after (clear_images self)
        (.history_length_image (!self.m_common_resources.ping_pong).toNat) 0 =
          .SHADER_READ_ONLY_OPTIMAL ∧
      L.after (clear_images self) .recurrent_blur_image 0 = .SHADER_READ_ONLY_OPTIMAL := by
    cases hf : self.m_common_resources.first_frame
    · rw [Layouts.after_clear_images_later L self hf]
      rcases hinv with h | h
      · rw [hf] at h; cases h
      · exact h
    · rw [Layouts.after_clear_images_first L self hf]
      simp
  rw [dispatches_render self he hd, render_eq self he hd, dispatches_ray_trace,
    dispatches_temporal_reprojection, dispatches_downsample, dispatches_upsample]
  have hrt := ray_trace_sets_images
  have htr := temporal_reprojection_sets_images self.m_common_resources.ping_pong
    (self.m_use_recurrent_blur && self.m_recurrent_blur.feedback)
  have hds := downsample_sets_images self.m_common_resources.ping_pong
  have hgb := gaussian_blur_sets_images self.m_common_resources.ping_pong
  have hrb := recurrent_blur_sets_images self.m_common_resources.ping_pong
  have hus := upsample_sets_images self.m_use_recurrent_blur
  cases hr : self.m_use_recurrent_blur
  · simp only [hr, Bool.false_and, Bool.false_eq_true, if_false] at htr hus
    simp only [Bool.false_and, Bool.false_eq_true, if_false, dispatches_gaussian_blur,
      List.map_cons, List.map_nil, List.cons_append, List.nil_append, DispatchRecord.shift, List.tail_cons,
      List.zip_cons_cons, List.zip_nil_right, List.forall_mem_cons, List.not_mem_nil,
      DispatchRecord.layouts_ok, DispatchRecord.writes, DispatchRecord.reads,
      hrt.1, hrt.2, htr.1, htr.2, hds.1, hds.2, hgb.1, hgb.2.1, hgb.2.2.1, hgb.2.2.2,
      hus.1, hus.2, Layouts.after_append, Layouts.after_ray_trace,
      Layouts.after_ray_trace_take, Layouts.after_temporal_reprojection,
      Layouts.after_temporal_reprojection_take, Layouts.after_downsample,
      Layouts.after_downsample_take, Layouts.after_gaussian_blur,
      Layouts.after_gaussian_blur_take_4, Layouts.after_gaussian_blur_take_10,
      Layouts.after_upsample, Layouts.after_upsample_take]
    clear hrt htr hds hgb hrb hus hinv
    generalize L.after (clear_images self) = Lc at hc
    obtain ⟨hc1, hc2, hc3⟩ := hc
    cases hp : self.m_common_resources.ping_pong <;> rw [hp] at hc1 hc2 <;>
      simp at hc1 hc2 <;> simp [hc1, hc2, hc3]
  · simp only [hr, Bool.true_and, if_true] at htr hus
    cases hfb : self.m_recurrent_blur.feedback <;>
    simp only [hfb, Bool.false_eq_true, if_false, if_true] at htr <;>
    simp only [Bool.false_eq_true, if_false, if_true, Bool.and_self, Bool.and_false,
      Bool.and_true, dispatches_recurrent_blur,
      List.map_cons, List.map_nil, List.cons_append, List.nil_append, DispatchRecord.shift,
      List.tail_cons, List.zip_cons_cons, List.zip_nil_right, List.forall_mem_cons,
      List.not_mem_nil, DispatchRecord.layouts_ok, DispatchRecord.writes,
      DispatchRecord.reads, hrt.1, hrt.2, htr.1, htr.2, hds.1, hds.2, hrb.1, hrb.2,
      hus.1, hus.2, Layouts.after_append, Layouts.after_ray_trace,
      Layouts.after_ray_trace_take, Layouts.after_temporal_reprojection,
      Layouts.after_temporal_reprojection_take, Layouts.after_downsample,
      Layouts.after_downsample_take, Layouts.after_recurrent_blur,
      Layouts.after_recurrent_blur_take, Layouts.after_upsample,
      Layouts.after_upsample_take] <;>
    clear hrt htr hds hgb hrb hus hinv <;>
    generalize L.after (clear_images self) = Lc at hc <;>
    obtain ⟨hc1, hc2, hc3⟩ := hc <;>
    cases hp : self.m_common_resources.ping_pong <;> rw [hp] at hc1 hc2 <;>
      simp at hc1 hc2 <;> simp [hc1, hc2, hc3]

/-- C21 (as stated, refuted): the memory barrier recorded most recently before the
TemporalReprojection dispatch does not have shader-write as source access and
shader-read as destination access. -/
theorem C21_barrier_before_reprojection_counterexample :
    ¬ ∀ self : State, ∀ d ∈ dispatches (temporal_reprojection self),
      d.memory_barriers_before =
        [{ srcAccessMask := .SHADER_WRITE, dstAccessMask := .SHADER_READ }] := by
  intro h
  have hex : ∃ d ∈ dispatches (temporal_reprojection first_frame_gaussian_state),
      d.memory_barriers_before =
        [{ srcAccessMask := .SHADER_READ, dstAccessMask := .SHADER_WRITE }] := by decide
  obtain ⟨d, hd, hb⟩ := hex
  have h1 := h first_frame_gaussian_state d hd
  rw [hb] at h1
  revert h1
  decide

/-- C21 (amended): the memory barrier recorded immediately before the
TemporalReprojection dispatch has shader-read as its source access and
shader-write as its destination access, in `temporal_reprojection` alone and in
the stream of a whole enabled, denoising frame; the barrier with shader-write
as source and shader-read as destination is the second barrier of
`temporal_reprojection`, recorded after the dispatch as its last command. -/
theorem C21_barrier_before_reprojection (self : State) :
    (∃ d, dispatches (temporal_reprojection self) = [d] ∧
      d.memory_barriers_before =
        [{ srcAccessMask := .SHADER_READ, dstAccessMask := .SHADER_WRITE }]) ∧
    memory_barriers_of (temporal_reprojection self) =
      [ { srcAccessMask := .SHADER_READ, dstAccessMask := .SHADER_WRITE },
        { srcAccessMask := .SHADER_WRITE, dstAccessMask := .SHADER_READ } ] ∧
    (∃ c, (temporal_reprojection self).getLast? = some c ∧
      c.is_pipeline_barrier = true ∧
      memory_barriers_of [c] =
        [{ srcAccessMask := .SHADER_WRITE, dstAccessMask := .SHADER_READ }]) ∧
    (self.m_enabled = true → self.m_denoise = true →
      ∃ d, dispatches_of .temporal_reprojection (render self) = [d] ∧
        d.memory_barriers_before =
          [{ srcAccessMask := .SHADER_READ, dstAccessMask := .SHADER_WRITE }]) := by
  refine ⟨⟨_, dispatches_temporal_reprojection self, rfl⟩, rfl, ⟨_, rfl, rfl, rfl⟩, ?_⟩
  intro he hd
  refine ⟨_, dispatches_of_temporal_reprojection_render self he hd, ?_⟩
  simp [DispatchRecord.memory_barriers_before, temporal_reprojection, ray_trace,
    Cmd.is_pipeline_barrier, List.filter_append]

/-- C21 (amended) at the enabled, denoising state `first_frame_gaussian_state`. -/
theorem C21_barrier_before_reprojection_witness :
    first_frame_gaussian_state.m_enabled = true ∧
    first_frame_gaussian_state.m_denoise = true ∧
    ∃ d, dispatches_of .temporal_reprojection (render first_frame_gaussian_state) = [d] ∧
      d.memory_barriers_before =
        [{ srcAccessMask := .SHADER_READ, dstAccessMask := .SHADER_WRITE }] :=
  ⟨rfl, rfl, (C21_barrier_before_reprojection first_frame_gaussian_state).2.2.2 rfl rfl⟩

/-- C22 (as stated, refuted): with the configured blend factor 0.7 the alpha
pushed by `temporal_reprojection` is 0.7, outside the interval from 0 to 0.5. -/
theorem C22_alpha_not_clamped_counterexample :
    ¬ ∀ self : State, ∀ a ∈ (pushed_constants (temporal_reprojection self)).filterMap
        PushConstants.alpha,
      0 ≤ a ∧ a ≤ 1 / 2 := by
  intro h
  have h1 := h alpha_out_of_range_state (7 / 10) (by
    simp [pushed_constants, temporal_reprojection, PushConstants.alpha,
      alpha_out_of_range_state])
  norm_num at h1

/-- C22 (amended): the alpha that `temporal_reprojection` pushes is the configured
temporal blend factor, unchanged; it lies in the closed interval from 0 to 0.5
exactly when the configured value does. -/
theorem C22_alpha_pushed_unchanged (self : State) :
    (pushed_constants (temporal_reprojection self)).filterMap PushConstants.alpha =
        [self.m_temporal_reprojection.alpha] ∧
      ((∀ a ∈ (pushed_constants (temporal_reprojection self)).filterMap PushConstants.alpha,
          0 ≤ a ∧ a ≤ 1 / 2) ↔
        (0 ≤ self.m_temporal_reprojection.alpha ∧
          self.m_temporal_reprojection.alpha ≤ 1 / 2)) := by
  have h : (pushed_constants (temporal_reprojection self)).filterMap PushConstants.alpha =
      [self.m_temporal_reprojection.alpha] := by
    simp [pushed_constants, temporal_reprojection, PushConstants.alpha]
  refine ⟨h, ?_⟩
  rw [h]
  simp

/-- C22 (amended) at a state whose configured blend factor is 0. -/
theorem C22_alpha_pushed_unchanged_witness :
    (0 ≤ first_frame_gaussian_state.m_temporal_reprojection.alpha ∧
      first_frame_gaussian_state.m_temporal_reprojection.alpha ≤ 1 / 2) ∧
    ∀ a ∈ (pushed_constants (temporal_reprojection first_frame_gaussian_state)).filterMap
        PushConstants.alpha,
      0 ≤ a ∧ a ≤ 1 / 2 :=
  have hr : 0 ≤ first_frame_gaussian_state.m_temporal_reprojection.alpha ∧
      first_frame_gaussian_state.m_temporal_reprojection.alpha ≤ 1 / 2 := by
    norm_num [first_frame_gaussian_state, first_frame_feedback_state]
  ⟨hr, (C22_alpha_pushed_unchanged first_frame_gaussian_state).2.2 hr⟩

/-- C23: over every run of frames with AO and denoising enabled throughout that
starts at a first frame and toggles the ping-pong flag once per frame, whatever
the layouts before frame 0: at every dispatch of every frame (RayTrace,
TemporalReprojection, Downsample, the blur dispatches and Upsample) each image
subresource of this class bound as a storage image is in the general layout and
each one bound as a sampled image is in the shader-read-only layout; every
subresource a dispatch writes is shader-read-only at the next dispatch of the
frame and at the end of the frame, the raw AO image by its mip generation. -/
theorem C23_layouts_at_dispatches (L0 : Layouts) (frames : Nat → State)
    (hen : ∀ n, (frames n).m_enabled = true)
    (hden : ∀ n, (frames n).m_denoise = true)
    (hfirst : (frames 0).m_common_resources.first_frame = true)
    (htoggle : ∀ n, (frames (n + 1)).m_common_resources.ping_pong =
      !(frames n).m_common_resources.ping_pong) :
    ∀ n,
      (∀ d ∈ dispatches (render (frames n)), d.layouts_ok (layouts_at L0 frames n)) ∧
      (∀ p ∈ (dispatches (render (frames n))).zip (dispatches (render (frames n))).tail,
        ∀ x ∈ p.1.writes,
          (layouts_at L0 frames n).after p.2.before x.1 x.2 = .SHADER_READ_ONLY_OPTIMAL) ∧
      (∀ d ∈ dispatches (render (frames n)), ∀ x ∈ d.writes,
        layouts_at L0 frames (n + 1) x.1 x.2 = .SHADER_READ_ONLY_OPTIMAL) := by
  have hinv : ∀ n, (frames n).m_common_resources.first_frame = true ∨
      (layouts_at L0 frames n
          (.color_image (!(frames n).m_common_resources.ping_pong).toNat) 0 =
            .SHADER_READ_ONLY_OPTIMAL ∧
        layouts_at L0 frames n
          (.history_length_image (!(frames n).m_common_resources.ping_pong).toNat) 0 =
            .SHADER_READ_ONLY_OPTIMAL ∧
        layouts_at L0 frames n .recurrent_blur_image 0 = .SHADER_READ_ONLY_OPTIMAL) := by
    intro n
    induction n with
    | zero => exact Or.inl hfirst
    | succ m ih =>
      right
      have h := (frame_layouts (frames m) (layouts_at L0 frames m) (hen m) (hden m) ih).2.2.2
      rw [htoggle m, Bool.not_not]
      exact h
  intro n
  have h := frame_layouts (frames n) (layouts_at L0 frames n) (hen n) (hden n) (hinv n)
  exact ⟨h.1, h.2.1, h.2.2.1⟩

/-- C23 on the run `recurrent_run`, started from undefined layouts, at its frame 2. -/
theorem C23_layouts_at_dispatches_witness :
    (∀ n, (recurrent_run n).m_enabled = true) ∧
    (∀ n, (recurrent_run n).m_denoise = true) ∧
    (recurrent_run 0).m_common_resources.first_frame = true ∧
    (∀ n, (recurrent_run (n + 1)).m_common_resources.ping_pong =
      !(recurrent_run n).m_common_resources.ping_pong) ∧
    (dispatches (render (recurrent_run 2))).length = 5 ∧
    (∀ d ∈ dispatches (render (recurrent_run 2)),
      d.layouts_ok (layouts_at (fun _ _ => .UNDEFINED) recurrent_run 2)) :=
  ⟨fun _ => rfl, fun _ => rfl, rfl, fun n => by simp [recurrent_run, Nat.bodd_succ],
    by decide,
    (C23_layouts_at_dispatches (fun _ _ => .UNDEFINED) recurrent_run (fun _ => rfl)
      (fun _ => rfl) rfl (fun n => by simp [recurrent_run, Nat.bodd_succ]) 2).1⟩

/-- C24 (as stated, refuted): the view written into `m_ray_trace.read_ds` is not
the view spanning all 5 mip levels of the ray-trace image. -/
theorem C24_read_ds_view_counterexample :
    ¬ (descriptor_bindings .ray_trace_read_ds =
        [(0, .COMBINED_IMAGE_SAMPLER, ray_trace_all_mips_view)]) := by
  decide

/-- C24 (amended): `m_ray_trace.read_ds`, which TemporalReprojection binds at set
index 3, holds at binding 0 the view `m_ray_trace.view`, which spans mip level 0
only of the ray-trace image; the view `m_ray_trace.all_mips_view` spans all 5
levels but is written into no descriptor set of this class, so no descriptor
set of this class samples a mip level of the ray-trace image above 0. -/
theorem C24_read_ds_view (self : State) :
    descriptor_bindings .ray_trace_read_ds =
        [(0, .COMBINED_IMAGE_SAMPLER, ray_trace_view)] ∧
      ray_trace_view.mips = [0] ∧
      ray_trace_all_mips_view.mips = [0, 1, 2, 3, 4] ∧
      (create_images self .ray_trace_image).mip_levels = 5 ∧
      (∀ w ∈ write_descriptor_sets, w.imageView ≠ ray_trace_all_mips_view) ∧
      (∀ w ∈ write_descriptor_sets, w.imageView.image = .ray_trace_image →
        w.imageView.mips = [0]) ∧
      set_at 3 (temporal_reprojection self) = some .ray_trace_read_ds ∧
      sampled_images .ray_trace_read_ds = [(.ray_trace_image, 0)] := by
  refine ⟨by decide, by decide, by decide, rfl, by decide, by decide, ?_, by decide⟩
  simp [set_at, dispatches_temporal_reprojection]

/-- C25 (the code): the block of `gaussian_blur` commented `Vertical`, recorded
first, pushes the direction with x component 1 and y component 0, and the block
commented `Horizontal`, recorded second, pushes the direction with x component
0 and y component 1: the directions are not the ones the claim gives, y axis
first and x axis second. -/
theorem C25_gaussian_directions (self : State) :
    (pushed_constants (gaussian_blur self)).map PushConstants.gaussian_direction =
        [some (1, 0), some (0, 1)] ∧
      (pushed_constants (gaussian_blur self)).map PushConstants.gaussian_direction ≠
        [some (0, 1), some (1, 0)] := by
  refine ⟨rfl, ?_⟩
  have h : (pushed_constants (gaussian_blur self)).map PushConstants.gaussian_direction =
      [some (1, 0), some (0, 1)] := rfl
  rw [h]
  decide

/-- C26 (as stated, refuted): on the first frame `first_frame_feedback_state`,
which selects the recurrent strategy with feedback, a command recorded ahead of
the TemporalReprojection dispatch that samples the recurrent-blur image discards
the image's contents: `clear_images` transitions it from the undefined layout. -/
theorem C26_first_frame_discards_counterexample :
    ¬ ∀ self : State,
      self.m_use_recurrent_blur = true → self.m_recurrent_blur.feedback = true →
      ∀ t ∈ dispatches_of .temporal_reprojection (render self),
        (Image.recurrent_blur_image, 0) ∈ t.reads →
        (∀ b ∈ dispatches_of .recurrent_blur (render self),
          t.before.length < b.before.length) ∧
        (∀ c ∈ t.before, c.overwrites .recurrent_blur_image = false) ∧
        (∀ e ∈ dispatches t.before, (Image.recurrent_blur_image, 0) ∉ e.writes) := by
  intro h
  have hex : ∃ t ∈ dispatches_of .temporal_reprojection (render first_frame_feedback_state),
      (Image.recurrent_blur_image, 0) ∈ t.reads ∧
      ∃ c ∈ t.before, c.overwrites .recurrent_blur_image = true := by decide
  obtain ⟨t, ht, hr, c, hc, ho⟩ := hex
  have h1 := (h first_frame_feedback_state rfl rfl t ht hr).2.1 c hc
  rw [ho] at h1
  cases h1

/-- C26 (amended): in every frame that is not a first frame and in which the
recurrent strategy is selected and feedback is enabled: if AO and denoising are
enabled, the TemporalReprojection dispatch, which samples the recurrent-blur
image, comes before the RecurrentBlur dispatch, which has that image as storage
target; no command recorded ahead of the TemporalReprojection dispatch clears
the image, generates its mips or transitions it from the undefined layout, no
earlier dispatch writes it, and no command ahead of it names the image at all.
If AO or denoising is disabled the frame records no TemporalReprojection
dispatch. -/
theorem C26_feedback_read_precedes_write (self : State)
    (hff : self.m_common_resources.first_frame = false)
    (hr : self.m_use_recurrent_blur = true) (hfb : self.m_recurrent_blur.feedback = true) :
    (self.m_enabled = true → self.m_denoise = true →
      ∃ (t b : DispatchRecord),
        (dispatches (render self))[1]? = some t ∧
        (dispatches (render self))[3]? = some b ∧
        dispatches_of .temporal_reprojection (render self) = [t] ∧
        dispatches_of .recurrent_blur (render self) = [b] ∧
        t.pipeline = some .temporal_reprojection ∧
        b.pipeline = some .recurrent_blur ∧
        (Image.recurrent_blur_image, 0) ∈ t.reads ∧
        (Image.recurrent_blur_image, 0) ∈ b.writes ∧
        t.before.length < b.before.length ∧
        (∀ c ∈ t.before, c.overwrites .recurrent_blur_image = false) ∧
        (∀ e ∈ dispatches t.before, (Image.recurrent_blur_image, 0) ∉ e.writes) ∧
        t.before.filter (fun c => c.touches .recurrent_blur_image) = []) ∧
    (¬ (self.m_enabled = true ∧ self.m_denoise = true) →
      dispatches_of .temporal_reprojection (render self) = []) := by
  constructor
  · intro he hd
    rw [dispatches_of, dispatches_of, dispatches_render self he hd, dispatches_ray_trace,
      dispatches_temporal_reprojection, dispatches_downsample, dispatches_upsample]
    simp only [hr, hfb, if_true, dispatches_recurrent_blur, List.map_cons, List.map_nil,
      List.cons_append, List.nil_append, DispatchRecord.shift, Bool.and_self]
    refine ⟨_, _, rfl, rfl, ?_, ?_, rfl, rfl, ?_, ?_, ?_, ?_, ?_, ?_⟩ <;>
      simp only [List.getElem_cons_succ, List.getElem_cons_zero]
    · simp [List.filter_cons]
    · simp [List.filter_cons]
    · simp only [DispatchRecord.reads]
      cases self.m_common_resources.ping_pong <;> decide
    · simp only [DispatchRecord.writes]
      cases self.m_common_resources.ping_pong <;> decide
    · simp [temporal_reprojection, downsample, recurrent_blur]
    · simp [clear_images, hff, ray_trace, temporal_reprojection, Cmd.overwrites]
    · simp [clear_images, hff, ray_trace, temporal_reprojection, dispatches, dispatches_from,
        Bound.step, DispatchRecord.writes]
      decide
    · simp [clear_images, hff, ray_trace, temporal_reprojection, Cmd.touches, mip0_range]
  · intro h
    have hall : ((dispatches (render self)).map (fun d => (d.pipeline, d.sets))).filter
        (fun p => p.1 = some Pipeline.temporal_reprojection) = [] := by
      rw [dispatch_sets_render]
      cases he : self.m_enabled <;> cases hd : self.m_denoise <;> simp_all
    rw [dispatches_of, List.filter_eq_nil_iff]
    intro d hd hp
    have hm : (d.pipeline, d.sets) ∈
        ((dispatches (render self)).map (fun d => (d.pipeline, d.sets))).filter
          (fun p => p.1 = some Pipeline.temporal_reprojection) :=
      List.mem_filter.2 ⟨List.mem_map_of_mem _ hd, hp⟩
    rw [hall] at hm
    cases hm

/-- C26 (amended) at frame 1 of the run `recurrent_run`, which is not a first
frame and selects the recurrent strategy with feedback. -/
theorem C26_feedback_read_precedes_write_witness :
    (recurrent_run 1).m_common_resources.first_frame = false ∧
    (recurrent_run 1).m_use_recurrent_blur = true ∧
    (recurrent_run 1).m_recurrent_blur.feedback = true ∧
    (recurrent_run 1).m_enabled = true ∧
    (recurrent_run 1).m_denoise = true ∧
    ∃ (t b : DispatchRecord),
      (dispatches (render (recurrent_run 1)))[1]? = some t ∧
      (dispatches (render (recurrent_run 1)))[3]? = some b ∧
      t.pipeline = some .temporal_reprojection ∧
      b.pipeline = some .recurrent_blur ∧
      (Image.recurrent_blur_image, 0) ∈ t.reads ∧
      (Image.recurrent_blur_image, 0) ∈ b.writes ∧
      t.before.length < b.before.length ∧
      (∀ c ∈ t.before, c.overwrites .recurrent_blur_image = false) :=
  ⟨rfl, rfl, rfl, rfl, rfl,
    match (C26_feedback_read_precedes_write (recurrent_run 1) rfl rfl rfl).1 rfl rfl with
    | ⟨t, b, h1, h2, _, _, h3, h4, h5, h6, h7, h8, _⟩ =>
      ⟨t, b, h1, h2, h3, h4, h5, h6, h7, h8⟩⟩

/-- Below `2^24` the group count is the least number of groups of `n` that
covers the extent. -/
theorem group_count_least (e n : Nat) (he : e < 2 ^ 24) (hn : 0 < n) (hn2 : n < 2 ^ 24) :
    e ≤ group_count e n * n ∧ ∀ g, e ≤ g * n → group_count e n ≤ g := by
  rw [group_count_eq e n he hn hn2]
  constructor
  · have h := Nat.lt_div_mul_add (a := e + n - 1) hn
    omega
  · intro g hg
    have h1 : e + n - 1 < (g + 1) * n := by
      rw [Nat.add_mul, Nat.one_mul]
      omega
    have := (Nat.div_lt_iff_lt_mul hn).2 h1
    omega

/-- C27: the grids of RayTrace, TemporalReprojection, RecurrentBlur and Upsample
are the group counts of the target extent for groups of 32, and those of both
Gaussian dispatches are the group counts for groups of 8; for every extent `e`
with `1 ≤ e < 2^24` and for `N` equal to 32 or 8 the group count is the
rounded-up quotient, the least `g` with `g * N ≥ e`, so the grid covers the
extent and its last group is not wholly outside it. -/
theorem C27_group_counts (self : State) :
    dispatch_grids (ray_trace self) =
        [(group_count (create_images self .ray_trace_image).width 32,
          group_count (create_images self .ray_trace_image).height 32, 1)] ∧
    dispatch_grids (temporal_reprojection self) =
        [(group_count
            (create_images self
              (.color_image self.m_common_resources.ping_pong.toNat)).width 32,
          group_count
            (create_images self
              (.color_image self.m_common_resources.ping_pong.toNat)).height 32, 1)] ∧
    dispatch_grids (recurrent_blur self) =
        [(group_count (create_images self .recurrent_blur_image).width 32,
          group_count (create_images self .recurrent_blur_image).height 32, 1)] ∧
    dispatch_grids (upsample self) =
        [(group_count (create_images self .upsample_image).width 32,
          group_count (create_images self .upsample_image).height 32, 1)] ∧
    dispatch_grids (gaussian_blur self) =
        [(group_count (create_images self (.gaussian_blur_image 0)).width 8,
          group_count (create_images self (.gaussian_blur_image 0)).height 8, 1),
         (group_count (create_images self (.gaussian_blur_image 1)).width 8,
          group_count (create_images self (.gaussian_blur_image 1)).height 8, 1)] ∧
    (∀ e N : Nat, N = 32 ∨ N = 8 → 1 ≤ e → e < 2 ^ 24 →
      group_count e N = (e + N - 1) / N ∧
      e ≤ group_count e N * N ∧
      (∀ g, e ≤ g * N → group_count e N ≤ g) ∧
      (group_count e N - 1) * N < e) := by
  refine ⟨rfl, rfl, rfl, rfl, rfl, ?_⟩
  intro e N hN h1 he
  have hn : 0 < N := by rcases hN with h | h <;> omega
  have hn2 : N < 2 ^ 24 := by rcases hN with h | h <;> subst h <;> norm_num
  have hl := group_count_least e N he hn hn2
  refine ⟨group_count_eq e N he hn hn2, hl.1, hl.2, ?_⟩
  by_contra hc
  have h2 : e ≤ (group_count e N - 1) * N := by omega
  have h3 := hl.2 _ h2
  have h4 : group_count e N = 0 := by omega
  have h5 := hl.1
  rw [h4] at h5
  omega

/-- C27 at the extent 540 with groups of 32: 17 groups. -/
theorem C27_group_counts_witness :
    ((32 : Nat) = 32 ∨ (32 : Nat) = 8) ∧ 1 ≤ 540 ∧ 540 < 2 ^ 24 ∧
      group_count 540 32 = (540 + 32 - 1) / 32 ∧
      540 ≤ group_count 540 32 * 32 ∧
      (∀ g, 540 ≤ g * 32 → group_count 540 32 ≤ g) ∧
      (group_count 540 32 - 1) * 32 < 540 :=
  ⟨Or.inl rfl, by decide, by decide,
    (C27_group_counts first_frame_gaussian_state).2.2.2.2.2 540 32 (Or.inl rfl)
      (by decide) (by decide)⟩

/-- C28: for each slot `i` of the two, the reprojection write set holds colour
image `i` at binding 0 and history-length image `i` at binding 1 as storage
images, the reprojection read set holds the same two views as sampled images,
the output read set and the bilinear output read set hold colour image `i`, and
the downsample write set holds mip levels 1, 2, 3 and 4 of colour image `i` at
bindings 0, 1, 2 and 3; every image these sets refer to is of slot `i`, and
the subresources written through the write set of slot `i` are those sampled
through its read set. -/
theorem C28_slot_descriptor_sets (i : Fin 2) :
    descriptor_bindings (.temporal_reprojection_write_ds i.val) =
        [ (0, .STORAGE_IMAGE, color_view i.val),
          (1, .STORAGE_IMAGE, history_length_view i.val) ] ∧
    descriptor_bindings (.temporal_reprojection_read_ds i.val) =
        [ (0, .COMBINED_IMAGE_SAMPLER, color_view i.val),
          (1, .COMBINED_IMAGE_SAMPLER, history_length_view i.val) ] ∧
    descriptor_bindings (.temporal_reprojection_output_read_ds i.val) =
        [(0, .COMBINED_IMAGE_SAMPLER, color_view i.val)] ∧
    descriptor_bindings (.temporal_reprojection_output_bilinear_read_ds i.val) =
        [(0, .COMBINED_IMAGE_SAMPLER, color_view i.val)] ∧
    descriptor_bindings (.downsample_write_ds i.val) =
        [ (0, .STORAGE_IMAGE, image_view_mip1 i.val),
          (1, .STORAGE_IMAGE, image_view_mip2 i.val),
          (2, .STORAGE_IMAGE, image_view_mip3 i.val),
          (3, .STORAGE_IMAGE, image_view_mip4 i.val) ] ∧
    storage_images (.downsample_write_ds i.val) =
        [ (.color_image i.val, 1), (.color_image i.val, 2), (.color_image i.val, 3),
          (.color_image i.val, 4) ] ∧
    (color_view i.val).image = .color_image i.val ∧
    (history_length_view i.val).image = .history_length_image i.val ∧
    (∀ ds ∈ [ DescriptorSet.temporal_reprojection_write_ds i.val,
              .temporal_reprojection_read_ds i.val,
              .temporal_reprojection_output_read_ds i.val,
              .temporal_reprojection_output_bilinear_read_ds i.val,
              .downsample_write_ds i.val ],
      ∀ img ∈ referenced_images ds, img.reprojection_slot = some i.val) ∧
    storage_images (.temporal_reprojection_write_ds i.val) =
      sampled_images (.temporal_reprojection_read_ds i.val) ∧
    (∀ x ∈ sampled_images (.temporal_reprojection_output_read_ds i.val),
      x ∈ storage_images (.temporal_reprojection_write_ds i.val)) ∧
    (∀ x ∈ sampled_images (.temporal_reprojection_output_bilinear_read_ds i.val),
      x ∈ storage_images (.temporal_reprojection_write_ds i.val)) := by
  fin_cases i <;> decide

/-- A first frame with AO and denoising enabled clears or writes mip 0 of every
reprojection image: `clear_images` clears slot `!ping_pong` and the
TemporalReprojection dispatch writes slot `ping_pong`. -/
theorem first_frame_initialises_slots (self : State)
    (he : self.m_enabled = true) (hd : self.m_denoise = true)
    (hf : self.m_common_resources.first_frame = true) :
    ∀ x ∈ [ (Image.color_image 0, 0), (Image.color_image 1, 0),
            (Image.history_length_image 0, 0), (Image.history_length_image 1, 0) ],
      (∃ c ∈ render self, c.clears_to_zero x.1 x.2 = true) ∨
      (∃ e ∈ dispatches (render self), x ∈ e.writes) := by
  have hclear : ∀ c ∈ clear_images self, c ∈ render self := by
    intro c hc
    rw [render_eq self he hd]
    simp [hc]
  have hwrite : ∀ x : Image × Nat,
      (∃ p ∈ (dispatches (render self)).map (fun d => (d.pipeline, d.sets)),
        x ∈ p.2.flatMap storage_images) → ∃ e ∈ dispatches (render self), x ∈ e.writes := by
    rintro x ⟨p, hp, hx⟩
    obtain ⟨e, he', rfl⟩ := List.mem_map.1 hp
    exact ⟨e, he', hx⟩
  have hsets := dispatch_sets_render self
  rw [he, hd] at hsets
  cases hp : self.m_common_resources.ping_pong
  · have hc1 : Cmd.clear_color_image (.color_image 1) .GENERAL zero_color mip0_range ∈
        clear_images self := by simp [clear_images, hf, hp]
    have hc2 : Cmd.clear_color_image (.history_length_image 1) .GENERAL zero_color mip0_range ∈
        clear_images self := by simp [clear_images, hf, hp]
    have hw : ∀ x ∈ [(Image.color_image 0, 0), (Image.history_length_image 0, 0)],
        ∃ p ∈ (dispatches (render self)).map (fun d => (d.pipeline, d.sets)),
          x ∈ p.2.flatMap storage_images := by
      rw [hsets, hp]
      cases self.m_use_recurrent_blur <;> cases self.m_recurrent_blur.feedback <;> decide
    intro x hx
    simp only [List.mem_cons, List.mem_singleton, List.not_mem_nil, or_false] at hx
    rcases hx with h | h | h | h <;> subst h
    · exact Or.inr (hwrite _ (hw _ (by simp)))
    · exact Or.inl ⟨_, hclear _ hc1, by decide⟩
    · exact Or.inr (hwrite _ (hw _ (by simp)))
    · exact Or.inl ⟨_, hclear _ hc2, by decide⟩
  · have hc1 : Cmd.clear_color_image (.color_image 0) .GENERAL zero_color mip0_range ∈
        clear_images self := by simp [clear_images, hf, hp]
    have hc2 : Cmd.clear_color_image (.history_length_image 0) .GENERAL zero_color mip0_range ∈
        clear_images self := by simp [clear_images, hf, hp]
    have hw : ∀ x ∈ [(Image.color_image 1, 0), (Image.history_length_image 1, 0)],
        ∃ p ∈ (dispatches (render self)).map (fun d => (d.pipeline, d.sets)),
          x ∈ p.2.flatMap storage_images := by
      rw [hsets, hp]
      cases self.m_use_recurrent_blur <;> cases self.m_recurrent_blur.feedback <;> decide
    intro x hx
    simp only [List.mem_cons, List.mem_singleton, List.not_mem_nil, or_false] at hx
    rcases hx with h | h | h | h <;> subst h
    · exact Or.inl ⟨_, hclear _ hc1, by decide⟩
    · exact Or.inr (hwrite _ (hw _ (by simp)))
    · exact Or.inl ⟨_, hclear _ hc2, by decide⟩
    · exact Or.inr (hwrite _ (hw _ (by simp)))

/-- With feedback off, the reprojection image subresources that a
TemporalReprojection dispatch of a frame samples are mip 0 of the images of slot
`!ping_pong`, sampled through the sets at indices 4 and 5. -/
theorem temporal_reprojection_reads_reprojection (self : State)
    (hfb : self.m_recurrent_blur.feedback = false) :
    ∀ d ∈ dispatches_of .temporal_reprojection (render self),
      ∀ x ∈ d.reads, x.1.reprojection_slot ≠ none →
        x ∈ (d.sets.drop 4).flatMap sampled_images ∧
        x ∈ [ (Image.color_image 0, 0), (Image.color_image 1, 0),
              (Image.history_length_image 0, 0), (Image.history_length_image 1, 0) ] := by
  have hall : ∀ p ∈ (dispatches (render self)).map (fun d => (d.pipeline, d.sets)),
      p.1 = some Pipeline.temporal_reprojection →
      ∀ x ∈ p.2.flatMap sampled_images, x.1.reprojection_slot ≠ none →
        x ∈ (p.2.drop 4).flatMap sampled_images ∧
        x ∈ [ (Image.color_image 0, 0), (Image.color_image 1, 0),
              (Image.history_length_image 0, 0), (Image.history_length_image 1, 0) ] := by
    rw [dispatch_sets_render, hfb]
    cases self.m_enabled <;>
    cases self.m_denoise <;>
    cases self.m_use_recurrent_blur <;>
    cases self.m_common_resources.ping_pong <;>
      decide
  intro d hd
  rw [dispatches_of, List.mem_filter] at hd
  exact hall _ (List.mem_map_of_mem _ hd.1) (by simpa using hd.2)

/-- C29 (as stated, refuted): in the run `denoise_late_run`, where denoising is off
in frame 0, TemporalReprojection samples in frame 1 mip 0 of `color_image[0]`,
which no earlier command of frame 1 or of frame 0 has cleared or written. -/
theorem C29_late_denoise_counterexample :
    ¬ ∀ frames : Nat → State,
      (∀ n, (frames n).m_common_resources.first_frame = decide (n = 0)) →
      (∀ n, (frames (n + 1)).m_common_resources.ping_pong =
        !(frames n).m_common_resources.ping_pong) →
      (∀ n, (frames n).m_recurrent_blur.feedback = false) →
      ∀ n, ∀ d ∈ dispatches_of .temporal_reprojection (render (frames n)),
        ∀ x ∈ d.reads, x.1.reprojection_slot ≠ none → initialised_earlier frames n d x := by
  intro h
  have hex : ∃ d ∈ dispatches_of .temporal_reprojection (render (denoise_late_run 1)),
      (Image.color_image 0, 0) ∈ d.reads ∧
      (¬ ∃ c ∈ d.before, c.clears_to_zero (Image.color_image 0) 0 = true) ∧
      (¬ ∃ e ∈ dispatches d.before, (Image.color_image 0, 0) ∈ e.writes) := by decide
  obtain ⟨d, hd, hx, h1, h2⟩ := hex
  have h0 : ¬ ((∃ c ∈ render (denoise_late_run 0),
        c.clears_to_zero (Image.color_image 0) 0 = true) ∨
      (∃ e ∈ dispatches (render (denoise_late_run 0)),
        (Image.color_image 0, 0) ∈ e.writes)) := by decide
  have hi := h denoise_late_run (fun _ => rfl)
    (fun n => by simp [denoise_late_run, Nat.bodd_succ]) (fun _ => rfl) 1 d hd _ hx
    (by decide)
  rcases hi with hi | hi | ⟨k, hk, hi⟩
  · exact h1 hi
  · exact h2 hi
  · have hk0 : k = 0 := by omega
    subst hk0
    exact h0 hi

/-- C29 (amended): for every run in which the first-frame flag is true only in
frame 0, the ping-pong flag is toggled once per frame, feedback is off, AO and
denoising are enabled in frame 0 and set arbitrarily in every later frame, every
reprojection image subresource that TemporalReprojection samples in some frame
was cleared or written by a command recorded earlier in that frame or in an
earlier frame. -/
theorem C29_reprojection_reads_initialised (frames : Nat → State)
    (hfirst : ∀ n, (frames n).m_common_resources.first_frame = decide (n = 0))
    (_htoggle : ∀ n, (frames (n + 1)).m_common_resources.ping_pong =
      !(frames n).m_common_resources.ping_pong)
    (hfb : ∀ n, (frames n).m_recurrent_blur.feedback = false)
    (he0 : (frames 0).m_enabled = true) (hd0 : (frames 0).m_denoise = true) :
    ∀ n, ∀ d ∈ dispatches_of .temporal_reprojection (render (frames n)),
      ∀ x ∈ d.reads, x.1.reprojection_slot ≠ none → initialised_earlier frames n d x := by
  have hf0 : (frames 0).m_common_resources.first_frame = true := by
    rw [hfirst 0]; rfl
  intro n d hd x hx hslot
  obtain ⟨hdrop, hx4⟩ := temporal_reprojection_reads_reprojection (frames n) (hfb n) d hd x hx hslot
  cases n with
  | zero =>
    obtain ⟨d', hd', hcl⟩ := first_frame_history_cleared_without_feedback (frames 0) he0 hd0 hf0
      (by rw [hfb 0]; simp)
    rw [hd', List.mem_singleton] at hd
    subst hd
    exact Or.inl (hcl x hdrop)
  | succ m =>
    exact Or.inr (Or.inr ⟨0, Nat.succ_pos m,
      first_frame_initialises_slots (frames 0) he0 hd0 hf0 x hx4⟩)

/-- C29 (amended) on the run `gaussian_run`, at its frame 3. -/
theorem C29_reprojection_reads_initialised_witness :
    (∀ n, (gaussian_run n).m_common_resources.first_frame = decide (n = 0)) ∧
    (∀ n, (gaussian_run (n + 1)).m_common_resources.ping_pong =
      !(gaussian_run n).m_common_resources.ping_pong) ∧
    (∀ n, (gaussian_run n).m_recurrent_blur.feedback = false) ∧
    (gaussian_run 0).m_enabled = true ∧ (gaussian_run 0).m_denoise = true ∧
    (∃ d ∈ dispatches_of .temporal_reprojection (render (gaussian_run 3)),
      ∃ x ∈ d.reads, x.1.reprojection_slot ≠ none) ∧
    ∀ d ∈ dispatches_of .temporal_reprojection (render (gaussian_run 3)),
      ∀ x ∈ d.reads, x.1.reprojection_slot ≠ none → initialised_earlier gaussian_run 3 d x :=
  ⟨fun _ => rfl, fun n => by simp [gaussian_run, Nat.bodd_succ], fun _ => rfl, rfl, rfl,
    by decide,
    C29_reprojection_reads_initialised gaussian_run (fun _ => rfl)
      (fun n => by simp [gaussian_run, Nat.bodd_succ]) (fun _ => rfl) rfl rfl 3⟩

/-- The descriptor sets that this class allocates sit, at every dispatch of a
frame and for every value of the flags, at an index of the pipeline layout
whose declared set layout is the one `create_descriptor_sets` allocated them
from, and the number of sets bound is the number of set layouts declared, which
is 5, 6, 2, 4, 4 and 3 for the six pipelines.  The sets at the remaining
indices are owned by the scene, the common resources and the G-buffer; their
allocation is outside this file and nothing is said about it here. -/
theorem bound_sets_own_layouts (self : State) :
    [Pipeline.ray_trace, .temporal_reprojection, .downsample, .gaussian_blur, .recurrent_blur,
        .upsample].map (fun p => (create_pipeline p).length) = [5, 6, 2, 4, 4, 3] ∧
    ∀ d ∈ dispatches (render self), ∀ p, d.pipeline = some p →
      d.sets.length = (create_pipeline p).length ∧
      ∀ x ∈ d.sets.zip (create_pipeline p),
        create_descriptor_sets x.1 = none ∨ create_descriptor_sets x.1 = some x.2 := by
  refine ⟨rfl, ?_⟩
  have hall : ∀ x ∈ (dispatches (render self)).map (fun d => (d.pipeline, d.sets)),
      x.1.map (fun p => (create_pipeline p).length) = some x.2.length ∧
      ∀ y ∈ x.2.zip ((x.1.map create_pipeline).getD []),
        create_descriptor_sets y.1 = none ∨ create_descriptor_sets y.1 = some y.2 := by
    rw [dispatch_sets_render]
    cases self.m_enabled <;>
    cases self.m_denoise <;>
    cases self.m_use_recurrent_blur <;>
    cases self.m_recurrent_blur.feedback <;>
    cases self.m_common_resources.ping_pong <;>
      decide
  intro d hd p hp
  have h := hall _ (List.mem_map_of_mem _ hd)
  simp only [hp, Option.map_some', Option.getD_some, Option.some.injEq] at h
  exact ⟨h.1.symm, h.2⟩

end RayTracedAO
